import Mathlib

/-!
Verification of the ztrader_v3 signal pipeline against its specification.

The development shallowly embeds the Python sources:
* `src/strategies/multi_indicator_scored.py` (MultiIndicatorScoredStrategy),
* `src/strategies/base.py` (BaseStrategy),
* `src/indicators/pivot_support_resistance.py` (PivotSupportResistance),
* `src/data/downloader.py` (YFinanceDownloader),
* `src/data/sync.py` (DataSync),
* `src/data/storage.py` (OHLCVDB.insert_ohlcv).

Python floats are modelled as elements of a linear ordered field (the claims
are instantiated at `ℚ`, and at `ℝ` where a square root is required).
Python `round(x, 2)` (round-half-even) is modelled by `round2`.
Python lists / dataframe columns are Lean lists; `iloc[-1]` and `iloc[-2]`
are modelled by `lastD` / `prevD` (total, with junk default 0; the strategy
is only invoked on frames of length at least 50, see claim C10).
Python `sorted` / `list.sort` (a stable sort) is modelled by
`List.insertionSort`, which is also stable.
-/

namespace ZTrader

/-! ## Numeric helpers -/

/-- Python `round` to an integer: round half to even (banker's rounding). -/
def roundHalfEven {α : Type} [LinearOrderedField α] [FloorRing α] (x : α) : ℤ :=
  let f := ⌊x⌋
  let r := x - (f : α)
  if r < 1/2 then f
  else if 1/2 < r then f + 1
  else if f % 2 = 0 then f else f + 1

/-- Python `round(x, 2)`: round to two decimal places, half to even. -/
def round2 {α : Type} [LinearOrderedField α] [FloorRing α] (x : α) : α :=
  (roundHalfEven (x * 100) : α) / 100

/-- Helper turning a decidable proposition into the 0/1 value Python obtains
when summing a list of booleans. -/
def b2n (p : Prop) [Decidable p] : ℕ := if p then 1 else 0

/-- Model of `iloc[-1]` on a column: last element, junk default 0. -/
def lastD {α : Type} [Zero α] (xs : List α) : α := xs.getLastD 0

/-- Model of `iloc[-2]` on a column: second to last element, junk default 0. -/
def prevD {α : Type} [Zero α] (xs : List α) : α := xs.dropLast.getLastD 0

/-- Model of `df.tail(n)`: the last `n` elements of a column. -/
def tailN {α : Type} (n : ℕ) (xs : List α) : List α := xs.drop (xs.length - n)

/-! ## Support/resistance detector
(`src/indicators/pivot_support_resistance.py`, class `PivotSupportResistance`) -/

/-- The OHLC columns of the dataframe handed to `PivotSupportResistance`.
Only `high`, `low` and `close` are read by the class. -/
structure Df (α : Type) where
  high : List α
  low : List α
  close : List α

/-- Result of `find_pivot_levels`: the dict of seven pivot levels. -/
structure PivotLevels (α : Type) where
  pp : α
  r1 : α
  r2 : α
  r3 : α
  s1 : α
  s2 : α
  s3 : α

/-- `find_pivot_levels`: standard pivot points from the last candle. -/
def find_pivot_levels {α : Type} [LinearOrderedField α] (df : Df α) : PivotLevels α :=
  let high := lastD df.high
  let low := lastD df.low
  let close := lastD df.close
  let pp := (high + low + close) / 3
  { pp := pp
    r1 := 2 * pp - low
    r2 := pp + (high - low)
    r3 := high + 2 * (pp - low)
    s1 := 2 * pp - high
    s2 := pp - (high - low)
    s3 := low - 2 * (high - pp) }

/-- One support/resistance level dict: price, original row position,
touch count, strength and the `type` tag. -/
structure SRLevel (α : Type) where
  price : α
  idx : ℕ
  touches : ℕ
  strength : ℕ
  kind : String

/-- Maximum of a rolling window (`rolling(w).max()` on one full window). -/
def winMax {α : Type} [LinearOrder α] : List α → Option α
  | [] => none
  | x :: xs => some (xs.foldl max x)

/-- Minimum of a rolling window (`rolling(w).min()` on one full window). -/
def winMin {α : Type} [LinearOrder α] : List α → Option α
  | [] => none
  | x :: xs => some (xs.foldl min x)

/-- Pandas `rolling(10, center=True).max()` at label `i` of a column of
length `n`: the window covers positions `i-5 … i+4` and the result is set
(`min_periods` defaults to the window size) only when the whole window fits,
i.e. when `5 ≤ i` and `i + 5 ≤ n`; otherwise the entry is NaN (`none`). -/
def centeredMax10 {α : Type} [LinearOrder α] (xs : List α) (i : ℕ) : Option α :=
  if 5 ≤ i ∧ i + 5 ≤ xs.length then winMax ((xs.drop (i - 5)).take 10) else none

/-- Pandas `rolling(10, center=True).min()` at label `i`, as `centeredMax10`. -/
def centeredMin10 {α : Type} [LinearOrder α] (xs : List α) (i : ℕ) : Option α :=
  if 5 ≤ i ∧ i + 5 ≤ xs.length then winMin ((xs.drop (i - 5)).take 10) else none

/-- Rows of `recent` whose `high` equals the centered rolling maximum: the
`peaks` frame of `find_resistance_levels`, as (position, price) pairs in row
order. NaN entries of the rolling column never compare equal. -/
def peakPositions {α : Type} [LinearOrder α] [DecidableEq α] (recent : List α) :
    List (ℕ × α) :=
  recent.enum.filter fun p => decide (centeredMax10 recent p.1 = some p.2)

/-- Rows of `recent` whose `low` equals the centered rolling minimum: the
`valleys` frame of `find_support_levels`. -/
def valleyPositions {α : Type} [LinearOrder α] [DecidableEq α] (recent : List α) :
    List (ℕ × α) :=
  recent.enum.filter fun p => decide (centeredMin10 recent p.1 = some p.2)

/-- `_count_touches`: number of rows of the whole dataframe whose high or low
lies within `tolerance` (relative) of `price`. -/
def count_touches {α : Type} [LinearOrderedField α] (df : Df α) (price : α)
    (tolerance : α) : ℕ :=
  let upper := price * (1 + tolerance)
  let lower := price * (1 - tolerance)
  ((df.high.zip df.low).filter fun hl =>
    (lower ≤ hl.1 ∧ hl.1 ≤ upper) ∨ (lower ≤ hl.2 ∧ hl.2 ≤ upper)).length

/-- Deduplication loop shared by `find_resistance_levels` and
`find_support_levels`: walk the candidate (position, price) list, skip a
candidate whose price rounded to 2 decimals was already seen, and otherwise
emit a level whose `touches` is produced by `mkTouches` from its price.
Returns the emitted levels together with the final `seen_prices` set. -/
def dedupLoop {α : Type} [LinearOrderedField α] [FloorRing α] [DecidableEq α]
    (kind : String) (mkTouches : α → ℕ) :
    List (ℕ × α) → List α → List (SRLevel α) × List α
  | [], seen => ([], seen)
  | (i, price) :: rest, seen =>
    if round2 price ∈ seen then dedupLoop kind mkTouches rest seen
    else
      let t := mkTouches price
      let r := dedupLoop kind mkTouches rest (round2 price :: seen)
      ({ price := price, idx := i, touches := t, strength := t, kind := kind } :: r.1,
        r.2)

/-- Appending loop for the three pivot levels, deduplicated against the same
`seen_prices` set; pivot levels get `touches = 1` and `strength = 2`. -/
def pivotAppend {α : Type} [LinearOrderedField α] [FloorRing α] [DecidableEq α]
    (lastIdx : ℕ) : List (String × α) → List α → List (SRLevel α)
  | [], _ => []
  | (name, price) :: rest, seen =>
    if round2 price ∈ seen then pivotAppend lastIdx rest seen
    else
      { price := price, idx := lastIdx, touches := 1, strength := 2, kind := name }
        :: pivotAppend lastIdx rest (round2 price :: seen)

/-- Stable ascending-by-price sort (Python `list.sort(key=price)`). -/
def sortByPrice {α : Type} [LinearOrder α] (ls : List (SRLevel α)) :
    List (SRLevel α) :=
  ls.insertionSort fun a b => a.price ≤ b.price

/-- Stable descending-by-price sort (Python `list.sort(key=price, reverse=True)`). -/
def sortByPriceDesc {α : Type} [LinearOrder α] (ls : List (SRLevel α)) :
    List (SRLevel α) :=
  ls.insertionSort fun a b => b.price ≤ a.price

/-- `find_resistance_levels`: swing highs of the last `lookback` candles found
by the centered rolling-window maximum, deduplicated by price rounded to two
decimals, each counted for touches over the whole dataframe; then the pivot
resistances `r1, r2, r3` (deduplicated against the same set); sorted by
ascending price. -/
def find_resistance_levels {α : Type} [LinearOrderedField α] [FloorRing α]
    [DecidableEq α] (df : Df α) (lookback : ℕ := 50) : List (SRLevel α) :=
  let recent := tailN lookback df.high
  let sw :=
    dedupLoop "resistance" (fun p => count_touches df p (1/100))
      (peakPositions recent) []
  let pivots := find_pivot_levels df
  let piv := pivotAppend (df.high.length - 1)
    [("pivot_r1", pivots.r1), ("pivot_r2", pivots.r2), ("pivot_r3", pivots.r3)] sw.2
  sortByPrice (sw.1 ++ piv)

/-- `find_support_levels`: as `find_resistance_levels` with swing lows, the
pivot supports `s1, s2, s3`, and a descending sort. -/
def find_support_levels {α : Type} [LinearOrderedField α] [FloorRing α]
    [DecidableEq α] (df : Df α) (lookback : ℕ := 50) : List (SRLevel α) :=
  let recent := tailN lookback df.low
  let sw :=
    dedupLoop "support" (fun p => count_touches df p (1/100))
      (valleyPositions recent) []
  let pivots := find_pivot_levels df
  let piv := pivotAppend (df.low.length - 1)
    [("pivot_s1", pivots.s1), ("pivot_s2", pivots.s2), ("pivot_s3", pivots.s3)] sw.2
  sortByPriceDesc (sw.1 ++ piv)

/-- `get_nearest_resistance`: first level of the ascending resistance list
strictly more than `min_distance` above `price`. -/
def get_nearest_resistance {α : Type} [LinearOrderedField α] [FloorRing α]
    [DecidableEq α] (df : Df α) (price : α) (min_distance : α := 1/100) :
    Option (SRLevel α) :=
  ((find_resistance_levels df).filter fun r =>
    decide (price * (1 + min_distance) < r.price)).head?

/-- `get_nearest_support`: first level of the descending support list strictly
more than `min_distance` below `price`. -/
def get_nearest_support {α : Type} [LinearOrderedField α] [FloorRing α]
    [DecidableEq α] (df : Df α) (price : α) (min_distance : α := 1/100) :
    Option (SRLevel α) :=
  ((find_support_levels df).filter fun s =>
    decide (s.price < price * (1 - min_distance))).head?

/-- A resistance level validated as a target, with its reward and
risk-reward ratio attached (`get_resistance_targets` adds these keys). -/
structure TargetLevel (α : Type) where
  level : SRLevel α
  reward : α
  rr : α

/-- `get_resistance_targets`: resistance levels strictly above the entry whose
risk-reward ratio meets `min_rr`, sorted ascending by price, first `count`.
Returns `[]` when the risk is not positive. -/
def get_resistance_targets {α : Type} [LinearOrderedField α] [FloorRing α]
    [DecidableEq α] (df : Df α) (entry_price stop_loss : α) (min_rr : α := 3/2)
    (count : ℕ := 3) : List (TargetLevel α) :=
  let risk := entry_price - stop_loss
  if risk ≤ 0 then []
  else
    let valid := (find_resistance_levels df).filterMap fun lv =>
      if lv.price ≤ entry_price then none
      else
        let reward := lv.price - entry_price
        let rr := reward / risk
        if min_rr ≤ rr then some ⟨lv, reward, rr⟩ else none
    ((valid.insertionSort fun a b => a.level.price ≤ b.level.price).take count)

/-! ## MultiIndicatorScoredStrategy
(`src/strategies/multi_indicator_scored.py`) -/

/-- The strategy dataframe after `calculate_indicators`: the OHLCV columns
and the indicator columns added by `calculate_indicators`. The indicator
values themselves are produced by the external TA-lib library; for the
claims about `analyze` / `generate_signal` they are data of the frame. -/
structure ScoredDf (α : Type) where
  open_ : List α
  high : List α
  low : List α
  close : List α
  volume : List α
  ema_8 : List α
  ema_20 : List α
  ema_50 : List α
  macd : List α
  macd_signal : List α
  macd_hist : List α
  rsi : List α
  stoch_k : List α
  stoch_d : List α
  atr : List α
  bb_upper : List α
  bb_middle : List α
  bb_lower : List α
  bb_width : List α

/-- The OHLC view of the strategy frame handed to `SupportResistance(self.df)`. -/
def ScoredDf.toDf {α : Type} (df : ScoredDf α) : Df α :=
  { high := df.high, low := df.low, close := df.close }

/-- One category report: `{score, conditions_met, total_conditions}` (the
`details` sub-dict is logging-only and omitted). -/
structure Analysis (α : Type) where
  score : α
  conditions_met : ℕ
  total_conditions : ℕ

/-- `analyze_trend`: the five trend conditions, scored as
`conditions_met / 5 * 100`. -/
def analyze_trend {α : Type} [LinearOrderedField α] (df : ScoredDf α) : Analysis α :=
  let ema_aligned := lastD df.ema_8 > lastD df.ema_20 ∧ lastD df.ema_20 > lastD df.ema_50
  let price_above_ema8 := lastD df.close > lastD df.ema_8
  let macd_bullish := lastD df.macd > lastD df.macd_signal
  let macd_positive := lastD df.macd > 0
  let macd_hist_increasing := lastD df.macd_hist > prevD df.macd_hist
  let conditions_met := b2n ema_aligned + b2n price_above_ema8 + b2n macd_bullish
    + b2n macd_positive + b2n macd_hist_increasing
  { score := (conditions_met : α) / 5 * 100
    conditions_met := conditions_met
    total_conditions := 5 }

/-- `analyze_momentum`: the three momentum conditions, scored as
`conditions_met / 3 * 100`. -/
def analyze_momentum {α : Type} [LinearOrderedField α] (df : ScoredDf α) : Analysis α :=
  let rsi_healthy := 40 ≤ lastD df.rsi ∧ lastD df.rsi ≤ 75
  let stoch_not_overbought := lastD df.stoch_k < 80
  let stoch_bullish := lastD df.stoch_k > lastD df.stoch_d
  let conditions_met := b2n rsi_healthy + b2n stoch_not_overbought + b2n stoch_bullish
  { score := (conditions_met : α) / 3 * 100
    conditions_met := conditions_met
    total_conditions := 3 }

/-- `analyze_volatility`: the three volatility conditions, scored as
`conditions_met / 3 * 100`. -/
def analyze_volatility {α : Type} [LinearOrderedField α] (df : ScoredDf α) : Analysis α :=
  let bb_range := lastD df.bb_upper - lastD df.bb_lower
  let distance_from_lower := lastD df.close - lastD df.bb_lower
  let near_lower_bb := distance_from_lower < bb_range * (3/10)
  let atr_increasing := lastD df.atr > prevD df.atr
  let bb_expanding := lastD df.bb_width > prevD df.bb_width
  let conditions_met := b2n near_lower_bb + b2n atr_increasing + b2n bb_expanding
  { score := (conditions_met : α) / 3 * 100
    conditions_met := conditions_met
    total_conditions := 3 }

/-- Result of `analyze`: weighted confidence and strong-category count,
with the three category reports. -/
structure AnalyzeResult (α : Type) where
  confidence : α
  strong_conditions : ℕ
  trend : Analysis α
  momentum : Analysis α
  volatility : Analysis α

/-- `analyze`: weighted confidence
`trend*0.40 + momentum*0.35 + volatility*0.25` and the number of categories
scoring at least 60. -/
def analyze {α : Type} [LinearOrderedField α] (df : ScoredDf α) : AnalyzeResult α :=
  let t := analyze_trend df
  let m := analyze_momentum df
  let v := analyze_volatility df
  { confidence := t.score * (40/100) + m.score * (35/100) + v.score * (25/100)
    strong_conditions := b2n (60 ≤ t.score) + b2n (60 ≤ m.score) + b2n (60 ≤ v.score)
    trend := t
    momentum := m
    volatility := v }

/-- The typed fundamentals fields read by `score_fundamentals`
(database field names; a missing field is `none`). -/
structure Fundamentals (α : Type) where
  trailing_pe : Option α := none
  price_to_book : Option α := none
  return_on_equity : Option α := none
  debt_to_equity : Option α := none
  market_cap : Option α := none

/-- P/E contribution of `score_fundamentals` (±10 points). -/
def peScore {α : Type} [LinearOrderedField α] : Option α → ℤ
  | none => 0
  | some pe =>
    if 0 < pe then
      if 10 ≤ pe ∧ pe ≤ 25 then 10
      else if (5 ≤ pe ∧ pe < 10) ∨ (25 < pe ∧ pe ≤ 35) then 5
      else if 50 < pe then -10
      else if pe < 5 then -5
      else 0
    else 0

/-- ROE contribution of `score_fundamentals` (±10 points). -/
def roeScore {α : Type} [LinearOrderedField α] : Option α → ℤ
  | none => 0
  | some roe =>
    if 20/100 ≤ roe then 10
    else if 15/100 ≤ roe then 5
    else if 10/100 ≤ roe then 0
    else -10

/-- Debt/equity contribution of `score_fundamentals` (±10 points). -/
def debtScore {α : Type} [LinearOrderedField α] : Option α → ℤ
  | none => 0
  | some de =>
    if de < 1/2 then 10
    else if de < 1 then 5
    else if de < 2 then 0
    else -10

/-- P/B contribution of `score_fundamentals` (±5 points). -/
def pbScore {α : Type} [LinearOrderedField α] : Option α → ℤ
  | none => 0
  | some pb =>
    if 0 < pb then
      if 1 ≤ pb ∧ pb ≤ 3 then 5
      else if 10 < pb then -5
      else 0
    else 0

/-- Market-cap contribution of `score_fundamentals` (±5 points). -/
def mcapScore {α : Type} [LinearOrderedField α] : Option α → ℤ
  | none => 0
  | some mc =>
    if 50000 < mc then 5
    else if 10000 < mc then 2
    else if mc < 1000 then -5
    else 0

/-- Result of `score_fundamentals`: the raw score and the halved adjustment
(the `breakdown` strings are logging-only and omitted). -/
structure FundScore (α : Type) where
  score : ℤ
  adjustment : α

/-- `score_fundamentals`: sum the five metric contributions and halve
(`adjustment = score / 2`); absent fundamentals score 0. -/
def score_fundamentals {α : Type} [LinearOrderedField α]
    (fundamentals : Option (Fundamentals α)) : FundScore α :=
  match fundamentals with
  | none => { score := 0, adjustment := 0 }
  | some f =>
    let s := peScore f.trailing_pe + roeScore f.return_on_equity
      + debtScore f.debt_to_equity + pbScore f.price_to_book
      + mcapScore f.market_cap
    { score := s, adjustment := (s : α) / 2 }

/-- `get_current_price` (from `BaseStrategy`): the latest close. -/
def get_current_price {α : Type} [LinearOrderedField α] (df : ScoredDf α) : α :=
  lastD df.close

/-- `calculate_stop_loss`: 1% below the nearest support when that keeps the
risk between 0.5% and 5%, else the greatest of the EMA-8, ATR and fixed 2%
fallback stops. -/
def calculate_stop_loss {α : Type} [LinearOrderedField α] [FloorRing α]
    [DecidableEq α] (df : ScoredDf α) (entry_price : α) : α :=
  let sl_ema := lastD df.ema_8 * (997/1000)
  let sl_atr := entry_price - 1 * lastD df.atr
  let sl_fixed := entry_price * (98/100)
  let fallback := max (max sl_ema sl_atr) sl_fixed
  match get_nearest_support df.toDf entry_price (5/1000) with
  | some support =>
    let sl_sr := support.price * (99/100)
    let risk_pct := (entry_price - sl_sr) / entry_price
    if 5/1000 ≤ risk_pct ∧ risk_pct ≤ 5/100 then sl_sr else fallback
  | none => fallback

/-- `calculate_take_profit`: three resistance-anchored targets when
available; with one or two anchors, pad with risk multiples
`1.5 + len(targets)*0.5` and re-sort ascending; with none, pure risk
multiples 1.5 / 2.0 / 2.5. -/
def calculate_take_profit {α : Type} [LinearOrderedField α] [FloorRing α]
    [DecidableEq α] (df : ScoredDf α) (entry_price stop_loss : α) : α × α × α :=
  let risk := entry_price - stop_loss
  let resistance_targets :=
    get_resistance_targets df.toDf entry_price stop_loss (3/2) 3
  match resistance_targets with
  | t0 :: t1 :: t2 :: _ => (t0.level.price, t1.level.price, t2.level.price)
  | [t0] =>
    let padded := [t0.level.price, entry_price + risk * 2, entry_price + risk * (5/2)]
    match padded.insertionSort (fun a b => a ≤ b) with
    | a :: b :: c :: _ => (a, b, c)
    | _ => (0, 0, 0)
  | [t0, t1] =>
    let padded := [t0.level.price, t1.level.price, entry_price + risk * (5/2)]
    match padded.insertionSort (fun a b => a ≤ b) with
    | a :: b :: c :: _ => (a, b, c)
    | _ => (0, 0, 0)
  | [] =>
    (entry_price + risk * (3/2), entry_price + risk * 2, entry_price + risk * (5/2))

/-- The emitted signal dict (`BaseStrategy.format_signal` plus the extra
fields `generate_signal` attaches). The `symbol`, `timestamp`, `ohlcv_data`
and raw `fundamentals` entries carry no numeric contract and are omitted. -/
structure Signal (α : Type) where
  signal_type : String
  confidence : α
  entry_price : α
  stop_loss : α
  target1 : α
  target2 : Option α
  target3 : Option α
  risk : α
  reward : α
  risk_reward : α
  analysis : AnalyzeResult α
  technical_confidence : α
  fundamental_score : ℤ
  fundamental_adjustment : α

/-- `BaseStrategy.format_signal`: round the levels to two decimals and attach
risk, reward and their ratio (computed on the unrounded values). -/
def format_signal {α : Type} [LinearOrderedField α] [FloorRing α]
    (signal_type : String) (confidence entry stop_loss : α) (targets : α × α × α)
    (analysis : AnalyzeResult α) : Signal α :=
  let risk := |entry - stop_loss|
  let reward := |targets.1 - entry|
  let risk_reward := if 0 < risk then reward / risk else 0
  { signal_type := signal_type
    confidence := round2 confidence
    entry_price := round2 entry
    stop_loss := round2 stop_loss
    target1 := round2 targets.1
    target2 := some (round2 targets.2.1)
    target3 := some (round2 targets.2.2)
    risk := round2 risk
    reward := round2 reward
    risk_reward := round2 risk_reward
    analysis := analysis
    technical_confidence := 0
    fundamental_score := 0
    fundamental_adjustment := 0 }

/-- The final confidence computed inside `generate_signal`:
technical confidence plus fundamental adjustment, clamped to `[0, 100]`. -/
def finalConfidence {α : Type} [LinearOrderedField α] (df : ScoredDf α)
    (fundamentals : Option (Fundamentals α)) : α :=
  max 0 (min 100 ((analyze df).confidence + (score_fundamentals fundamentals).adjustment))

/-- `generate_signal`: emit a BUY signal when the final confidence reaches
`MIN_CONFIDence` and enough categories are strong (two, or one when the
threshold is below 60); otherwise `None`. -/
def generate_signal {α : Type} [LinearOrderedField α] [FloorRing α]
    [DecidableEq α] (df : ScoredDf α) (fundamentals : Option (Fundamentals α))
    (min_confidence : α := 65) : Option (Signal α) :=
  let analysis := analyze df
  let fund_score := score_fundamentals fundamentals
  let final_confidence := finalConfidence df fundamentals
  if final_confidence < min_confidence then none
  else
    let min_strong : ℕ := if 60 ≤ min_confidence then 2 else 1
    if analysis.strong_conditions < 2 ∧ analysis.strong_conditions < min_strong then
      none
    else
      let entry_price := get_current_price df
      let stop_loss := calculate_stop_loss df entry_price
      let targets := calculate_take_profit df entry_price stop_loss
      let base := format_signal "BUY" final_confidence entry_price stop_loss
        targets analysis
      some { base with
        technical_confidence := analysis.confidence
        fundamental_score := fund_score.score
        fundamental_adjustment := fund_score.adjustment }

/-! ## BaseStrategy validation (`src/strategies/base.py`, `_validate_data`) -/

/-- The columns `_validate_data` requires. -/
def required_cols : List String := ["open", "high", "low", "close", "volume"]

/-- `BaseStrategy._validate_data`, run by `__init__`: raise (`Except.error`)
when a required OHLCV column is missing, then when the frame has fewer than
50 rows; otherwise return normally. The Python error messages interpolate
data; they are abstracted to fixed tags. -/
def validate_data (columns : List String) (nrows : ℕ) : Except String Unit :=
  let missing := required_cols.filter fun c => ¬ columns.contains c
  if missing ≠ [] then Except.error "Missing columns"
  else if nrows < 50 then Except.error "Insufficient data"
  else Except.ok ()

/-! ## Data sync and download
(`src/data/downloader.py` `YFinanceDownloader`, `src/data/sync.py` `DataSync`)

Timestamps are modelled as whole minutes (`ℤ`) in IST, counted from an
epoch that falls on a Monday 00:00, so that Python `weekday()` (Monday = 0)
is `(t / 1440) % 7` with floor conventions. A downloaded dataframe is its
list of candle times; candle payloads play no role in these claims. -/

/-- Python `datetime.weekday()` of an IST minute timestamp (Monday = 0). -/
def weekdayOf (t : ℤ) : ℤ := (t.fdiv 1440).emod 7

/-- The hour-of-day of an IST minute timestamp. -/
def hourOf (t : ℤ) : ℤ := (t.emod 1440).fdiv 60

/-- The weekend / Monday-pre-market correction of `update_latest_data`:
Saturday steps back one day, Sunday two days, Monday before 9 AM three
days; the time of day is kept. -/
def adjustNow (now : ℤ) : ℤ :=
  if weekdayOf now = 5 then now - 1440
  else if weekdayOf now = 6 then now - 2 * 1440
  else if weekdayOf now = 0 ∧ hourOf now < 9 then now - 3 * 1440
  else now

/-- Python `(now - latest).days`: floor of the difference in days. -/
def daysBetween (now latest : ℤ) : ℤ := (now - latest).fdiv 1440

/-- The f-string `f"{n}d"` building the incremental download period. -/
def periodStr (n : ℤ) : String := toString n ++ "d"

/-- `DataSync._get_period_for_timeframe`: the timeframe-specific maximum
download period, defaulting to `'1y'`. -/
def get_period_for_timeframe (timeframe : String) : String :=
  if timeframe = "1m" then "7d"
  else if timeframe = "5m" then "60d"
  else if timeframe = "15m" then "60d"
  else if timeframe = "30m" then "60d"
  else if timeframe = "1h" then "730d"
  else if timeframe = "1d" then "max"
  else if timeframe = "1w" then "max"
  else "1y"

/-- `DataSync._needs_update`: the per-timeframe staleness thresholds
(in minutes), defaulting to one day. -/
def needs_update (latest : Option ℤ) (timeframe : String) (now : ℤ) : Bool :=
  match latest with
  | none => true
  | some lt =>
    let threshold : ℤ :=
      if timeframe = "1m" then 60
      else if timeframe = "5m" then 120
      else if timeframe = "15m" then 240
      else if timeframe = "30m" then 360
      else if timeframe = "1h" then 1440
      else if timeframe = "1d" then 1440
      else if timeframe = "1w" then 7 * 1440
      else 1440
    decide (threshold < now - lt)

/-- Insertion with the `ON CONFLICT DO NOTHING` semantics of
`insert_ohlcv`, restricted to one (symbol, timeframe): the number of fetched
times not already present (duplicates within the batch are also inserted
only once). -/
def insertNewTimes (existing fetched : List ℤ) : ℕ :=
  (fetched.foldl
    (fun acc t => if t ∈ acc.1 then acc else (t :: acc.1, acc.2 + 1))
    (existing, 0)).2

/-- A three-digit run of characters, as `re.search(r'(\d{3})', msg)`. -/
def firstThreeDigits : List Char → Option ℕ
  | a :: b :: c :: rest =>
    if a.isDigit ∧ b.isDigit ∧ c.isDigit then
      some ((a.toNat - 48) * 100 + (b.toNat - 48) * 10 + (c.toNat - 48))
    else firstThreeDigits (b :: c :: rest)
  | _ => none

/-- Whether `pat` starts `text` (on character lists). -/
def startsWithChars : List Char → List Char → Bool
  | _, [] => true
  | [], _ :: _ => false
  | a :: as, b :: bs => a = b && startsWithChars as bs

/-- Whether `pat` occurs in `text` (on character lists): Python `in`. -/
def containsChars (text pat : List Char) : Bool :=
  startsWithChars text pat ||
    match text with
    | [] => false
    | _ :: rest => containsChars rest pat

/-- Python `sub in s` on strings. -/
def strContains (hay sub : String) : Bool := containsChars hay.data sub.data

/-- Python `s.lower()`. -/
def strLower (s : String) : String := ⟨s.data.map Char.toLower⟩

/-- The error classification of `download_historical`'s `except` branch,
by the label of the log line it emits: the HTTP-429 and the
empty-response/`Expecting value` branches both classify as rate limiting,
distinct from any malformed-response category. `status_attr` models
`e.response.status_code` when the exception carries one; otherwise the
three-digit regex is applied to the message. -/
def classify_download_error (msg : String) (status_attr : Option ℕ) : String :=
  let status := match status_attr with
    | some c => some c
    | none => firstThreeDigits msg.data
  if status = some 429 ∨ strContains msg "429" then "RATE_LIMIT"
  else if status = some 404 ∨ strContains msg "404" ∨ strContains msg "Not Found" then
    "NOT_FOUND"
  else if strContains msg "Expecting value" ∨ strContains msg "line 1 column 1" then
    "RATE_LIMIT"
  else if strContains (strLower msg) "timeout" then "TIMEOUT"
  else if strContains (strLower msg) "connection" then "CONNECTION"
  else "OTHER"

/-- Result of `download_historical`: the dataframe (its candle times), and
the classification logged when the vendor call raised. -/
structure DownloadResult where
  df : List ℤ
  error_class : Option String

/-- `download_historical`: on success return the frame; on any exception
from the vendor call, classify and log it and return an empty frame — the
error is swallowed. -/
def download_historical (fetch : Except String (List ℤ))
    (status_attr : Option ℕ := none) : DownloadResult :=
  match fetch with
  | .ok df => { df := df, error_class := none }
  | .error msg =>
    { df := [], error_class := some (classify_download_error msg status_attr) }

/-- Result of one `update_latest_data` run: rows inserted and the period
passed to `download_historical` (none when the download was skipped). -/
structure UpdateOutcome where
  rows : ℕ
  fetched_period : Option String
deriving DecidableEq

/-- `update_latest_data`: with no stored latest time, download full history
with the fixed period `'1y'`; otherwise apply the weekend correction to
`now`, skip when not forced and the latest data is less than one day old,
and else download a `min(days_since + 1, 30)` day window and insert only
the candles strictly newer than the stored latest time. -/
def update_latest_data (fetch : String → Except String (List ℤ))
    (existing : List ℤ) (latest : Option ℤ) (now : ℤ) (force : Bool) :
    UpdateOutcome :=
  match latest with
  | none =>
    { rows := insertNewTimes existing (download_historical (fetch "1y")).df
      fetched_period := some "1y" }
  | some latest_time =>
    let nowAdj := adjustNow now
    let days_since := daysBetween nowAdj latest_time
    if ¬ force ∧ days_since < 1 then { rows := 0, fetched_period := none }
    else
      let period := periodStr (min (days_since + 1) 30)
      let df := (download_historical (fetch period)).df
      if df = [] then { rows := 0, fetched_period := some period }
      else
        let newRows := df.filter fun t => decide (latest_time < t)
        if newRows = [] then { rows := 0, fetched_period := some period }
        else { rows := insertNewTimes existing newRows, fetched_period := some period }

/-- One per-task result dict of `DataSync.sync_symbol`. -/
structure TaskResult where
  symbol : String
  timeframe : String
  status : String
  rows : ℕ
  error_type : Option String
deriving DecidableEq

/-- The error categorization of `sync_symbol`'s `except` branch. -/
def classify_sync_error (msg : String) : String :=
  if strContains (strLower msg) "rate limit" ∨ strContains (strLower msg) "expecting value" then
    "RATE_LIMIT"
  else if strContains (strLower msg) "not found" ∨ strContains msg "404" then "NOT_FOUND"
  else if strContains (strLower msg) "timeout" then "TIMEOUT"
  else if strContains (strLower msg) "connection" then "CONNECTION"
  else "OTHER"

/-- `sync_symbol` when the body runs without an escaping exception (the
vendor fetch itself cannot raise past `download_historical`, which swallows
errors): full mode downloads the timeframe-specific maximum period,
incremental mode delegates to `update_latest_data`; both report success. -/
def sync_symbol (fetch : String → Except String (List ℤ)) (existing : List ℤ)
    (latest : Option ℤ) (now : ℤ) (symbol timeframe : String)
    (full_download : Bool) (force : Bool) : TaskResult :=
  if full_download then
    let period := get_period_for_timeframe timeframe
    let dl := download_historical (fetch period)
    { symbol := symbol, timeframe := timeframe, status := "success"
      rows := insertNewTimes existing dl.df, error_type := none }
  else
    let r := update_latest_data fetch existing latest now force
    { symbol := symbol, timeframe := timeframe, status := "success"
      rows := r.rows, error_type := none }

/-- The task result built by `sync_symbol`'s `except` branch for an
exception that does escape its body (e.g. from the database layer). -/
def sync_symbol_on_exception (symbol timeframe msg : String) : TaskResult :=
  { symbol := symbol, timeframe := timeframe, status := "error"
    rows := 0, error_type := some (classify_sync_error msg) }

/-- The aggregate record accumulated by `sync_all_symbols`. -/
structure BatchSummary where
  total_tasks : ℕ
  successful : ℕ
  failed : ℕ
  total_rows : ℕ
deriving DecidableEq

/-- The aggregation loop of `sync_all_symbols`: count successes and
failures and sum the inserted rows of successful tasks; there is no
per-error-kind counter in the summary. -/
def batch_summary (results : List TaskResult) : BatchSummary :=
  { total_tasks := results.length
    successful := (results.filter fun r => r.status == "success").length
    failed := (results.filter fun r => !(r.status == "success")).length
    total_rows := ((results.filter fun r => r.status == "success").map
      TaskResult.rows).sum }

/-! ## Candle store (`src/data/storage.py`, `OHLCVDB.insert_ohlcv`) -/

/-- One row of the `ohlcv_data` table. -/
structure OhlcvRow where
  time : ℤ
  symbol : String
  timeframe : String
  open_ : ℚ
  high : ℚ
  low : ℚ
  close : ℚ
  volume : ℤ
deriving DecidableEq

/-- One row of a downloaded dataframe handed to `insert_ohlcv`. -/
structure DfRow where
  time : ℤ
  open_ : ℚ
  high : ℚ
  low : ℚ
  close : ℚ
  volume : ℤ
deriving DecidableEq

/-- The composite key `(time, symbol, timeframe)` of the `ohlcv_data` table. -/
def rowKey (r : OhlcvRow) : ℤ × String × String := (r.time, r.symbol, r.timeframe)

/-- The table row built from a dataframe row for a given symbol/timeframe. -/
def mkRow (symbol timeframe : String) (r : DfRow) : OhlcvRow :=
  { time := r.time, symbol := symbol, timeframe := timeframe
    open_ := r.open_, high := r.high, low := r.low, close := r.close
    volume := r.volume }

/-- `insert_ohlcv`: `INSERT … SELECT … ON CONFLICT (time, symbol,
timeframe) DO NOTHING`, returning the new store and the reported row count
(`cur.rowcount`: rows actually inserted). A row whose key is present —
already stored, or duplicated earlier in the same batch — is skipped
silently. -/
def insert_ohlcv (store : List OhlcvRow) (symbol timeframe : String)
    (df : List DfRow) : List OhlcvRow × ℕ :=
  df.foldl
    (fun acc r =>
      let row := mkRow symbol timeframe r
      if acc.1.any fun x => rowKey x = rowKey row then acc
      else (acc.1 ++ [row], acc.2 + 1))
    (store, 0)

/-! ## Verification fixtures (concrete frames and records used by the
counterexamples and witnesses below) -/

/-- A one-candle frame with H = 112, L = 90, C = 100, on which the claimed
and the computed S3 differ. -/
def dfC4 : Df ℚ := { high := [112], low := [90], close := [100] }

/-- A key is present in a store. -/
def KeyIn (store : List OhlcvRow) (k : ℤ × String × String) : Prop :=
  ∃ x ∈ store, rowKey x = k

instance (store : List OhlcvRow) (k : ℤ × String × String) :
    Decidable (KeyIn store k) := by
  unfold KeyIn; infer_instance

/-- A concrete 50-row frame for the C2 witness. -/
def dfC2 : ScoredDf ℚ :=
  { open_ := List.replicate 50 100, high := List.replicate 50 101
    low := List.replicate 50 99, close := List.replicate 50 100
    volume := List.replicate 50 1000
    ema_8 := List.replicate 50 99, ema_20 := List.replicate 50 98
    ema_50 := List.replicate 50 97, macd := List.replicate 50 1
    macd_signal := List.replicate 50 (1/2), macd_hist := List.replicate 50 (1/2)
    rsi := List.replicate 50 55, stoch_k := List.replicate 50 60
    stoch_d := List.replicate 50 50, atr := List.replicate 50 2
    bb_upper := List.replicate 50 104, bb_middle := List.replicate 50 100
    bb_lower := List.replicate 50 96, bb_width := List.replicate 50 8 }

/-- Fundamentals with only a P/E of 18, for the C2 witness. -/
def fundC2 : Fundamentals ℚ := { trailing_pe := some 18 }

/-- A two-row frame on which the strategy emits a signal (used as the C3
witness): momentum and volatility are fully satisfied, the trend partly, so
the technical confidence is 68 and two categories are strong. -/
def dfC3 : ScoredDf ℚ :=
  { open_ := [100, 100], high := [101, 102], low := [99, 99], close := [100, 100]
    volume := [0, 0]
    ema_8 := [0, 95], ema_20 := [0, 0], ema_50 := [0, 0]
    macd := [0, 0], macd_signal := [0, 0], macd_hist := [0, 0]
    rsi := [0, 50], stoch_k := [0, 50], stoch_d := [0, 40]
    atr := [1, 2], bb_upper := [0, 105], bb_middle := [0, 102]
    bb_lower := [0, 99], bb_width := [5, 6] }

/-- The claim's reading of `find_resistance_levels`, for comparison: the
same computation except that each level's touches are counted among the
last `lookback` candles only, following the spec sentence "its `touches`
count = number of candles whose high or low lies within ±1% of the level"
scoped to "the last `lookback` candles". -/
def find_resistance_levels_spec (df : Df ℚ) (lookback : ℕ := 50) :
    List (SRLevel ℚ) :=
  let recent : Df ℚ :=
    { high := tailN lookback df.high, low := tailN lookback df.low
      close := tailN lookback df.close }
  let sw :=
    dedupLoop "resistance" (fun p => count_touches recent p (1/100))
      (peakPositions recent.high) []
  let pivots := find_pivot_levels df
  let piv := pivotAppend (df.high.length - 1)
    [("pivot_r1", pivots.r1), ("pivot_r2", pivots.r2), ("pivot_r3", pivots.r3)] sw.2
  sortByPrice (sw.1 ++ piv)

/-- A 51-candle frame separating the spec's touch counting from the code's:
the oldest candle (outside the 50-candle tail) floats at 110 and touches
the swing level 110 formed inside the tail. -/
def dfC5 : Df ℚ :=
  { high := [221/2] ++ (List.replicate 25 100 ++ [110] ++ List.replicate 24 100)
    low := [110] ++ List.replicate 50 99
    close := [1103/10] ++ List.replicate 50 (199/2) }

/-- A 10-candle frame whose single valid centered window yields one swing
resistance at 110, for the C5 witness. -/
def dfC5w : Df ℚ :=
  { high := List.replicate 5 100 ++ [110] ++ List.replicate 4 100
    low := List.replicate 10 99
    close := List.replicate 10 (199/2) }

/-- The swing resistance level produced on `dfC5w`, for the C5 witness. -/
def lvC5w : SRLevel ℚ :=
  { price := 110, idx := 5, touches := 1, strength := 1, kind := "resistance" }

/-! ## Claim C1: the TA-lib indicator model and the failing candle window

Modelled from the spec: the indicator numeric kernels (TA-lib
EMA / MACD / RSI / STOCH / ATR / BBANDS called by `calculate_indicators`)
are external library calls with no source under `src/`; the definitions
below follow the conventions the spec states for them: EMA seeded with the
SMA of the first `period` values and smoothed with `k = 2/(period+1)`,
Wilder smoothing for RSI and ATR, slow stochastic = fast %K smoothed twice
by SMA(3), Bollinger middle = SMA(20) with population standard deviation.
Warm-up positions (NaN in the library) are represented as `0`; on a
50-candle frame the strategy never reads them. Exact rational arithmetic
models the double-precision computation; only the Bollinger bands need
`Real.sqrt`, so the frame is built over `ℝ` from rational columns. -/

/-- Modelled from the spec: the EMA recurrence `a + k*(x - a)` emitting one
value per input. -/
def emaRec (k a : ℚ) : List ℚ → List ℚ
  | [] => []
  | x :: xs => (a + k * (x - a)) :: emaRec k (a + k * (x - a)) xs

/-- Modelled from the spec: TA-lib `EMA(period)` over a column: SMA seed at
position `period - 1`, then the recurrence with `k = 2/(period+1)`. -/
def emaCol (p : ℕ) (xs : List ℚ) : List ℚ :=
  if xs.length < p ∨ p = 0 then List.replicate xs.length 0
  else
    List.replicate (p - 1) 0
      ++ ((xs.take p).sum / (p : ℚ))
        :: emaRec (2 / ((p : ℚ) + 1)) ((xs.take p).sum / (p : ℚ)) (xs.drop p)

/-- Modelled from the spec: `SMA(period)` (the Bollinger middle band). -/
def smaCol (p : ℕ) (xs : List ℚ) : List ℚ :=
  xs.enum.map fun pr =>
    if p ≤ pr.1 + 1 then ((xs.drop (pr.1 + 1 - p)).take p).sum / (p : ℚ) else 0

/-- Modelled from the spec: the population variance of each full
`period`-window (the square of the Bollinger standard deviation). -/
def varCol (p : ℕ) (xs : List ℚ) : List ℚ :=
  xs.enum.map fun pr =>
    if p ≤ pr.1 + 1 then
      ((((xs.drop (pr.1 + 1 - p)).take p).map fun x =>
        (x - ((xs.drop (pr.1 + 1 - p)).take p).sum / (p : ℚ)) ^ 2).sum) / (p : ℚ)
    else 0

/-- Modelled from the spec: the MACD line `EMA12 - EMA26` (entries before
position 25 are warm-up garbage, never read). -/
def macdCol (xs : List ℚ) : List ℚ :=
  List.zipWith (fun a b => a - b) (emaCol 12 xs) (emaCol 26 xs)

/-- Modelled from the spec: the MACD signal line, an EMA(9) of the MACD
values from their first valid position 25. -/
def macdSignalCol (xs : List ℚ) : List ℚ :=
  List.replicate 25 0 ++ emaCol 9 ((macdCol xs).drop 25)

/-- Modelled from the spec: the MACD histogram `macd - signal`. -/
def macdHistCol (xs : List ℚ) : List ℚ :=
  List.zipWith (fun a b => a - b) (macdCol xs) (macdSignalCol xs)

/-- One-candle differences `xs[i+1] - xs[i]` feeding the RSI. -/
def diffsCol (xs : List ℚ) : List ℚ :=
  List.zipWith (fun a b => b - a) xs xs.tail

/-- `100 * gain / (gain + loss)`, the RSI value from the running Wilder
averages (0 when both vanish). -/
def rsiVal (g l : ℚ) : ℚ := if g + l = 0 then 0 else 100 * g / (g + l)

/-- Modelled from the spec: the Wilder RSI recurrence over the differences,
threading the running average gain and loss. -/
def rsiRec (p : ℕ) (g l : ℚ) : List ℚ → List ℚ
  | [] => []
  | d :: ds =>
    rsiVal ((g * ((p : ℚ) - 1) + max d 0) / p) ((l * ((p : ℚ) - 1) + max (-d) 0) / p)
      :: rsiRec p ((g * ((p : ℚ) - 1) + max d 0) / p)
        ((l * ((p : ℚ) - 1) + max (-d) 0) / p) ds

/-- Average gain of the first `p` differences (RSI seed). -/
def avgGain (p : ℕ) (ds : List ℚ) : ℚ := (((ds.take p).map fun d => max d 0).sum) / p

/-- Average loss of the first `p` differences (RSI seed). -/
def avgLoss (p : ℕ) (ds : List ℚ) : ℚ := (((ds.take p).map fun d => max (-d) 0).sum) / p

/-- Modelled from the spec: TA-lib `RSI(period)`, Wilder smoothing seeded
with the simple averages of the first `period` differences. -/
def rsiCol (p : ℕ) (xs : List ℚ) : List ℚ :=
  if xs.length ≤ p ∨ p = 0 then List.replicate xs.length 0
  else
    List.replicate p 0
      ++ rsiVal (avgGain p (diffsCol xs)) (avgLoss p (diffsCol xs))
        :: rsiRec p (avgGain p (diffsCol xs)) (avgLoss p (diffsCol xs))
          ((diffsCol xs).drop p)

/-- Modelled from the spec: the fast stochastic
`%K = 100 (close - LL) / (HH - LL)` over `kp`-windows of highs and lows. -/
def fastkCol (kp : ℕ) (h l c : List ℚ) : List ℚ :=
  c.enum.map fun pr =>
    if kp ≤ pr.1 + 1 then
      match winMax ((h.drop (pr.1 + 1 - kp)).take kp),
          winMin ((l.drop (pr.1 + 1 - kp)).take kp) with
      | some hh, some ll => if hh = ll then 0 else 100 * (pr.2 - ll) / (hh - ll)
      | _, _ => 0
    else 0

/-- Modelled from the spec: SMA(`p`) smoothing of a stochastic series whose
first valid position is `first` (earlier output positions are warm-up). -/
def smoothCol (p first : ℕ) (xs : List ℚ) : List ℚ :=
  xs.enum.map fun pr =>
    if first + p ≤ pr.1 + 1 then ((xs.drop (pr.1 + 1 - p)).take p).sum / (p : ℚ) else 0

/-- Modelled from the spec: the true range
`max (high-low) (max |high-prev_close| |low-prev_close|)` (0 at position 0). -/
def trCol (h l c : List ℚ) : List ℚ :=
  0 :: ((h.tail.zip (l.tail.zip c)).map fun t =>
    max (t.1 - t.2.1) (max |t.1 - t.2.2| |t.2.1 - t.2.2|))

/-- Modelled from the spec: the Wilder smoothing recurrence
`a ↦ (a*(p-1) + t)/p` used by ATR. -/
def wilderRec (p : ℕ) (a : ℚ) : List ℚ → List ℚ
  | [] => []
  | t :: ts => ((a * ((p : ℚ) - 1) + t) / p) :: wilderRec p ((a * ((p : ℚ) - 1) + t) / p) ts

/-- Modelled from the spec: TA-lib `ATR(period)`, the Wilder-smoothed true
range seeded with the average of the first `period` true ranges. -/
def atrCol (p : ℕ) (h l c : List ℚ) : List ℚ :=
  if c.length ≤ p ∨ p = 0 then List.replicate c.length 0
  else
    List.replicate p 0
      ++ (((trCol h l c).drop 1).take p).sum / (p : ℚ)
        :: wilderRec p ((((trCol h l c).drop 1).take p).sum / (p : ℚ))
          ((trCol h l c).drop (p + 1))

/-- The closes of the C1 window: a drifting two-step rise from 470, a
one-day cliff at position 45, then a shallow recovery with a gap-up last
candle. -/
def clC1 : List ℚ :=
  [470, 943/2, 471, 945/2, 472, 947/2, 473, 949/2, 474, 951/2, 475, 953/2, 476, 955/2, 477, 957/2,
   478, 959/2, 479, 961/2, 480, 963/2, 481, 965/2, 482, 967/2, 483, 969/2, 484, 971/2, 485, 973/2,
   486, 975/2, 487, 977/2, 488, 979/2, 489, 981/2, 490, 983/2, 491, 985/2, 492, 480, 2401/5,
   961/2, 2399/5, 2408/5]

/-- The highs of the C1 window. -/
def hiC1 : List ℚ :=
  [4703/10, 2359/5, 2359/5, 2364/5, 2364/5, 2369/5, 2369/5, 2374/5, 2374/5, 2379/5, 2379/5,
   2384/5, 2384/5, 2389/5, 2389/5, 2394/5, 2394/5, 2399/5, 2399/5, 2404/5, 2404/5, 2409/5, 2409/5,
   2414/5, 2414/5, 2419/5, 2419/5, 2424/5, 2424/5, 2429/5, 2429/5, 2434/5, 2434/5, 2439/5, 2439/5,
   2444/5, 2444/5, 2449/5, 2449/5, 2454/5, 2454/5, 2459/5, 2459/5, 2464/5, 2464/5, 4923/10, 961/2,
   2404/5, 2404/5, 2412/5]

/-- The lows of the C1 window. -/
def loC1 : List ℚ :=
  [4697/10, 4697/10, 4707/10, 4707/10, 4717/10, 4717/10, 4727/10, 4727/10, 4737/10, 4737/10,
   4747/10, 4747/10, 4757/10, 4757/10, 4767/10, 4767/10, 4777/10, 4777/10, 4787/10, 4787/10,
   4797/10, 4797/10, 4807/10, 4807/10, 4817/10, 4817/10, 4827/10, 4827/10, 4837/10, 4837/10,
   4847/10, 4847/10, 4857/10, 4857/10, 4867/10, 4867/10, 4877/10, 4877/10, 4887/10, 4887/10,
   4897/10, 4897/10, 4907/10, 4907/10, 4917/10, 959/2, 4797/10, 4799/10, 959/2, 481]

/-- The opens of the C1 window. -/
def opC1 : List ℚ :=
  [470, 470, 943/2, 471, 945/2, 472, 947/2, 473, 949/2, 474, 951/2, 475, 953/2, 476, 955/2, 477,
   957/2, 478, 959/2, 479, 961/2, 480, 963/2, 481, 965/2, 482, 967/2, 483, 969/2, 484, 971/2, 485,
   973/2, 486, 975/2, 487, 977/2, 488, 979/2, 489, 981/2, 490, 983/2, 491, 985/2, 492, 480,
   2401/5, 961/2, 2406/5]

/-- Intermediate value of `emaCol 12 clC1` (proved below). -/
def e12C1 : List ℚ :=
  [0, 0, 0, 0, 0, 0, 0, 0, 0, 0, 0, 1893/4, 24631/52, 320601/676, 4171515/8788, 54296781/114244,
   706481855/1485172, 9195580353/19307236, 119647715971/250994068, 1557330175029/3262922884,
   20263037893959/42417997492, 263741948418345/551433967396, 3431640909236747/7168641576148,
   44665789122587037/93192340489924, 581161096580744143/1211500426369012,
   7564292974687020177/15749505542797156, 98421245075899274643/204743572056363028,
   1281030217157507795205/2661666436732719364, 16667825499489858091607/34601663677525351732,
   216944295925265555539449/449821627807829572516,
   2822714234151515796274459/5847681161501784442708,
   36739650345807910021773933/76019855099523197755204,
   478027452960623558457571551/988258116293801570817652,
   6221853645953315674580497761/12847355511819420420629476,
   80953714373998587910078584995/167015621653652465468183188,
   1053665120469602925773279409621/2171203081497482051086381444,
   13709410532707174665366381795175/28225640059467266664122958772,
   178436417477997375383206576384713/366933320773074466633598464036,
   2321661379974037957582931638059051/4770133170049968066236780032468,
   30217775819533436206390529230500669/62011731210649584861078140422084,
   393167030601304391434152399149149679/806152505738444603194015825487092,
   5117285249755239350715393947094457905/10479982574599779841522205731332196,
   66581480635564616662244139446207253427/136239773469797137939788674507318548,
   866592463858960964155377378297988557477/1771117055107362793217252768595141124,
   11275296284674215594234927885575492998263/23024521716395716311824285991736834612,
   146131799979156259195935521293397784208413/299318782313144312053715717892578849956,
   9474577791521313242258396548457041768951427/19455720850354380283491521663017625247140,
   122917303443925005117277714351187397320967237/252924371054606943685389781619229128212820,
   1594796564347175879450554892304873641963661679/3288016823709890267910067161049978666766660,
   20709780012416300980007080504876949513429925381/42744218708228573482830873093649722667966580]

/-- Intermediate value of `emaCol 26 clC1` (proved below). -/
def e26C1 : List ℚ :=
  [0, 0, 0, 0, 0, 0, 0, 0, 0, 0, 0, 0, 0, 0, 0, 0, 0, 0, 0, 0, 0, 0, 0, 0, 0, 1907/4, 51539/108,
   1393127/2916, 37650863/78732, 1017720347/2125764, 27504999755/57395628,
   743470939919/1549681956, 20093064359207/41841412812, 543121986471875/1129718145924,
   14678395135926851/30502389939948, 396760713369500471/823564528378596,
   10722816813935021471/22236242266222092, 289839701527006964843/600378541187996484,
   7833162751457034682427/16210220612075905068, 211731295206872329932383/437675956526049436836,
   5722204817567336696408855/11817250826203334794572,
   154671478001341295513285651/319065772307490039453444,
   4180109538439487606575423283/8614775852302231065242988,
   112988292675504887763649925255/232598948012160238761560676,
   3053584681731587869032623836559/6280171596328326446562138252,
   82368581775764890114515248635895/169564633100864814057177732804,
   11110322090120964101416973552411683/22891225468616749897718993928540,
   59951303985672959837426458395123803/123612617530530449447682567214116,
   8087006337120605076128288256883803943/16687703366621610675437146573905660,
   218248754310745062305788266002081030287/450567990898783488236802957495452820]

/-- Intermediate value of `macdCol clC1` (proved below). -/
def macdC1v : List ℚ :=
  [0, 0, 0, 0, 0, 0, 0, 0, 0, 0, 0, 1893/4, 24631/52, 320601/676, 4171515/8788, 54296781/114244,
   706481855/1485172, 9195580353/19307236, 119647715971/250994068, 1557330175029/3262922884,
   20263037893959/42417997492, 263741948418345/551433967396, 3431640909236747/7168641576148,
   44665789122587037/93192340489924, 581161096580744143/1211500426369012,
   27858103579238027/7874752771398578, 9651938498028445169/2764038222760900878,
   3430591903143700175819/970177416189076208178,
   1188592316406538772507201/340532273082365749070478,
   422468892823380818489510123/119526827851910377923737778,
   146373402405074968793285391089/41953916576020542651231960078,
   52027510912372659876075290958059/14725824718183210470582417987378,
   18026257574291368133558804749223681/5168764476082306875174428713569678,
   6407464828387916873292735100260411083/1814236331104889713186224478462956978,
   2220059302263341530111710461244678487409/636796952217816289328364791940497899278,
   789141815440803039686693972603054751151499/223515730228453517554256041971114762646578,
   273425764830012100245331214099861857542026561/78454021310187184661543870731861281688948878,
   97193980883871874702622722035342389367177932843/27537361479875701816201898626883309872821056178,
   33676711098833128263423911084217434048921065641329/9665613879436371337486866418036041765360190718478,
   11971221081594800670353462839479333598907180871412139/3392630471682166339457890112730650659641426942185778,
   4147958147333547982580450407173828567713180663798467841/1190813295560440385149719429568458381534140856707208078,
   1474522011154067206635460368723253945507516655251293019403/417975466741714575187551519778528891918483440704230035378,
   510919374232075079456052652516510747120301827823297929220849/146709388826341815890830583442263641063387687687184742417678,
   181625407976410718568591822278832670543376974640822012459035979/51494995478045977377681534788234538013249078378201844588604978,
   62933581226883776221881089686242437680007857198652633307237459521/18074743412794138059566218710670322842650426510748847450600347278,
   15540181231499833812162462652593244237634881392744980421091535263679/6344234937890742458907742767445283317770299705272845455160721894578,
   18134282568600641445589314737230701026628257442684801632433695981767249/11134132315998253015383088556866472222686875982753843773807066924984390,
   3872970502271377010890863172727359905044811255431532727344436056196020379/3908080442915386808399464083460131750163093469946599164606280490669520890,
   581977650797478003793978792389405862039383419212309535211293624696718356569/1371736235463300769748211893294506244307245807951256306776804452225001832390,
   57287127331637011178924120540745146067131269040271152256053888629178043055399/481479418647618570181622374546371691751843278590890963678658362730975643168890]

/-- Intermediate value of `macdSignalCol clC1` (proved below). -/
def sigC1v : List ℚ :=
  [0, 0, 0, 0, 0, 0, 0, 0, 0, 0, 0, 0, 0, 0, 0, 0, 0, 0, 0, 0, 0, 0, 0, 0, 0, 0, 0, 0, 0, 0, 0, 0,
   0, 57387680356346121546647458645066656851/16328126979944007418676020306166612802,
   2234507487570667298277742801975015391233/636796952217816289328364791940497899278,
   3926390327990019926468644866575976360442631/1117578651142267587771280209855573813232890,
   6879780844648048477988633463171980097771586729/1961350532754679616538596768296532042223721950,
   12089061827982656930661609433177019791450756088591/3442170184984462727025237328360413734102632022250,
   21182631693841791363576888529707715043311994753547889/6041008674647732085929291511272526103350119199048750,
   37222428074150625493432865770384215420127028678613823031/10601970224006769810805906602283283311379459194330556250,
   65222658226524815638343651064037652723962037839144019538649/18606457743131881017964366087007162211470950886050126218750,
   114612018574323141259913554355209707322997648864459656860435071/32654333339196451186527462482697569681131518805017971513906250,
   200830850190230555911422743792566831200262279304396508952429667809/57308355010289771832355696657134234790385815502806540006905468750,
   352913938657869137440493712862432842936174870862443797186022182900711/100576163043058549565784247633270582057127106207425477712119097656250,
   618408320709405644399814676152297972576154864781989515677373307919551369/176511166140567754487951354596389871510258071394031713384769016386718750,
   1020004864614871089309238854659557254255074568754938479435754148378415356451/309777096576696409126354627316664224500502915296525656990269623758691406250,
   1609179433128269648507254503672786949687291271120652391069534136645240951472829/543658804492102198016752370940745713998382616345402528017923189696503417968750,
   2448397811918310167114090751512420997724473119235013766013990969656364603436211291/954121201883639357519400411001008728067161491686181436671455197917363498535156250,
   3579634915335035502898197768734133871342119101987089585103588053989508158246169168189/1674482709305787072446547721306770317757868417909248421358403872344972939929199218750,
   5095737996486392056980842275384688244997063819092548523891753409819309057516731619559231/2938717154831656312143691250893381907665059073430730979483998795965427509575744628906250]

/-- The exact last EMA-8 of the C1 closes. -/
def e8C1v : ℚ := 115762506663276610015651168657756098429838369/239450303651240395772054800534340942113620

/-- The exact last EMA-20 of the C1 closes. -/
def e20C1v : ℚ := 45002287438019054980152234471602486997365389/92813005782343282010401026671320733092020

/-- The exact last MACD value of the C1 closes. -/
def macdC1last : ℚ := 57287127331637011178924120540745146067131269040271152256053888629178043055399/481479418647618570181622374546371691751843278590890963678658362730975643168890

/-- The exact last MACD-signal value of the C1 closes. -/
def sigC1last : ℚ := 5095737996486392056980842275384688244997063819092548523891753409819309057516731619559231/2938717154831656312143691250893381907665059073430730979483998795965427509575744628906250

/-- The exact last MACD-histogram value of the C1 closes. -/
def h49C1v : ℚ := -2373042559853190501210989617487433398416710409789587395930087249864555520410590541224928/1469358577415828156071845625446690953832529536715365489741999397982713754787872314453125

/-- The exact second-to-last MACD-histogram value of the C1 closes. -/
def h48C1v : ℚ := -1434606489163197680774063000340329959328662444540719148501932195514823441568763295032/837241354652893536223273860653385158878934208954624210679201936172486469964599609375

/-- The exact last RSI-14 of the C1 closes. -/
def rsiC1v : ℚ := 1715930896859916350714904761006102960589770/39598459264092297859276410291617417671823

/-- The exact last ATR-14 of the C1 window. -/
def atr49C1v : ℚ := 279330841921144955080792839648787995625163/130161111551561470482100164146235692810240

/-- The exact second-to-last ATR-14 of the C1 window. -/
def atr48C1v : ℚ := 19627543389351481032294721584081423832119/9297222253682962177292868867588263772160

/-- `MultiIndicatorScoredStrategy.calculate_indicators`: attach the TA-lib
indicator columns to the OHLCV frame. The rational columns are cast into
`ℝ`; the Bollinger bands add and subtract twice the standard deviation
`Real.sqrt` of the window variance around the SMA-20 middle band, and the
width column is their difference. -/
noncomputable def calculate_indicators (o h l c v : List ℚ) : ScoredDf ℝ :=
  { open_ := o.map fun q => (q : ℝ)
    high := h.map fun q => (q : ℝ)
    low := l.map fun q => (q : ℝ)
    close := c.map fun q => (q : ℝ)
    volume := v.map fun q => (q : ℝ)
    ema_8 := (emaCol 8 c).map fun q => (q : ℝ)
    ema_20 := (emaCol 20 c).map fun q => (q : ℝ)
    ema_50 := (emaCol 50 c).map fun q => (q : ℝ)
    macd := (macdCol c).map fun q => (q : ℝ)
    macd_signal := (macdSignalCol c).map fun q => (q : ℝ)
    macd_hist := (macdHistCol c).map fun q => (q : ℝ)
    rsi := (rsiCol 14 c).map fun q => (q : ℝ)
    stoch_k := (smoothCol 3 13 (fastkCol 14 h l c)).map fun q => (q : ℝ)
    stoch_d := (smoothCol 3 15 (smoothCol 3 13 (fastkCol 14 h l c))).map fun q => (q : ℝ)
    atr := (atrCol 14 h l c).map fun q => (q : ℝ)
    bb_upper := List.zipWith (fun m s => ((m : ℝ) + 2 * Real.sqrt (s : ℝ)))
      (smaCol 20 c) (varCol 20 c)
    bb_middle := (smaCol 20 c).map fun q => (q : ℝ)
    bb_lower := List.zipWith (fun m s => ((m : ℝ) - 2 * Real.sqrt (s : ℝ)))
      (smaCol 20 c) (varCol 20 c)
    bb_width := List.zipWith
      (fun m s => (((m : ℝ) + 2 * Real.sqrt (s : ℝ)) - ((m : ℝ) - 2 * Real.sqrt (s : ℝ))))
      (smaCol 20 c) (varCol 20 c) }

/-- The C1 strategy frame: the indicator-extended window. -/
noncomputable def dfC1 : ScoredDf ℝ :=
  calculate_indicators opC1 hiC1 loC1 clC1 (List.replicate 50 1000)


/-! ## Claim C4: pivot level formulas -/

/-- C4 counterexample: on the candle H = 112, L = 90, C = 100 the computed
S3 is not `L − 2(PP − H)` (the code computes `L − 2(H − PP)`): the claim's
S3 formula is false here. -/
theorem c4_s3_counterexample :
    (find_pivot_levels dfC4).s3 ≠
      lastD dfC4.low - 2 * ((find_pivot_levels dfC4).pp - lastD dfC4.high) := by
  norm_num [find_pivot_levels, dfC4, lastD]

/-- C4 (amended): for every candle series, `find_pivot_levels` computes,
from the most recent candle's high H, low L and close C:
PP = (H+L+C)/3, R1 = 2·PP − L, R2 = PP + (H − L), R3 = H + 2(PP − L),
S1 = 2·PP − H, S2 = PP − (H − L), and S3 = L − 2(H − PP). -/
theorem c4_pivot_formulas {α : Type} [LinearOrderedField α] (df : Df α) :
    (find_pivot_levels df).pp
        = (lastD df.high + lastD df.low + lastD df.close) / 3
    ∧ (find_pivot_levels df).r1 = 2 * (find_pivot_levels df).pp - lastD df.low
    ∧ (find_pivot_levels df).r2
        = (find_pivot_levels df).pp + (lastD df.high - lastD df.low)
    ∧ (find_pivot_levels df).r3
        = lastD df.high + 2 * ((find_pivot_levels df).pp - lastD df.low)
    ∧ (find_pivot_levels df).s1 = 2 * (find_pivot_levels df).pp - lastD df.high
    ∧ (find_pivot_levels df).s2
        = (find_pivot_levels df).pp - (lastD df.high - lastD df.low)
    ∧ (find_pivot_levels df).s3
        = lastD df.low - 2 * (lastD df.high - (find_pivot_levels df).pp) := by
  exact ⟨rfl, rfl, rfl, rfl, rfl, rfl, rfl⟩

/-! ## Claim C10: constructor validation -/

/-- C10: `BaseStrategy.__init__` raises `ValueError` (returns `Except.error`)
if and only if a required OHLCV column is missing or the frame has fewer
than 50 rows; and on a frame of at least 50 rows the `iloc[-1]` and
`iloc[-2]` accesses of the analysis methods hit actual elements (the total
accessors `lastD` / `prevD` never take their default). -/
theorem c10_validation (columns : List String) (nrows : ℕ) :
    (validate_data columns nrows = Except.ok () ↔
      ((∀ c ∈ required_cols, columns.contains c) ∧ 50 ≤ nrows))
    ∧ ∀ (xs : List ℚ), 50 ≤ xs.length →
        xs.getLast? = some (lastD xs) ∧ xs.dropLast.getLast? = some (prevD xs) := by
  constructor
  · unfold validate_data
    simp only []
    split_ifs with h1 h2
    · constructor
      · intro h; exact absurd h (by simp)
      · rintro ⟨hall, -⟩
        rcases List.exists_mem_of_ne_nil _ h1 with ⟨c, hc⟩
        rw [List.mem_filter] at hc
        exact absurd (hall c hc.1) (by simpa using hc.2)
    · constructor
      · intro h; exact absurd h (by simp)
      · rintro ⟨-, hge⟩; omega
    · have hall : ∀ c ∈ required_cols, columns.contains c := by
        rw [not_not, List.filter_eq_nil_iff] at h1
        intro c hc
        simpa using h1 c hc
      exact ⟨fun _ => ⟨hall, by omega⟩, fun _ => rfl⟩
  · intro xs hlen
    have hne : xs ≠ [] := by
      intro h; rw [h] at hlen; simp at hlen
    have hne2 : xs.dropLast ≠ [] := by
      have : xs.dropLast.length = xs.length - 1 := List.length_dropLast xs
      intro h; rw [h] at this; simp at this; omega
    constructor
    · rw [lastD, List.getLastD_eq_getLast?, List.getLast?_eq_getLast xs hne]
      simp
    · rw [prevD, List.getLastD_eq_getLast?, List.getLast?_eq_getLast _ hne2]
      simp

/-- C10 witness: the validation succeeds on a well-formed 50-row frame, and
on a concrete 50-element column the last/second-to-last accesses are real
elements. -/
theorem c10_witness :
    (validate_data required_cols 50 = Except.ok () ↔
      ((∀ c ∈ required_cols, required_cols.contains c) ∧ 50 ≤ 50))
    ∧ (50 ≤ (List.replicate 50 (1:ℚ)).length →
        (List.replicate 50 (1:ℚ)).getLast? = some (lastD (List.replicate 50 (1:ℚ)))
        ∧ (List.replicate 50 (1:ℚ)).dropLast.getLast?
            = some (prevD (List.replicate 50 (1:ℚ)))) :=
  ⟨(c10_validation required_cols 50).1,
   (c10_validation required_cols 50).2 (List.replicate 50 (1:ℚ))⟩

/-! ## Claim C9: idempotent candle insertion -/

/-- The branch test of `insert_ohlcv` decides key presence. -/
theorem any_eq_keyIn (store : List OhlcvRow) (row : OhlcvRow) :
    (store.any fun x => rowKey x = rowKey row) = true ↔ KeyIn store (rowKey row) := by
  simp [KeyIn, List.any_eq_true]

/-- The fold of `insert_ohlcv` only ever appends to the store. -/
theorem insert_fold_mono (symbol timeframe : String) (df : List DfRow) :
    ∀ (s : List OhlcvRow) (n : ℕ) (x : OhlcvRow), x ∈ s →
      x ∈ (df.foldl
        (fun acc r =>
          let row := mkRow symbol timeframe r
          if acc.1.any fun x => rowKey x = rowKey row then acc
          else (acc.1 ++ [row], acc.2 + 1))
        (s, n)).1 := by
  induction df with
  | nil => intro s n x hx; exact hx
  | cons r rest ih =>
    intro s n x hx
    simp only [List.foldl_cons]
    split
    · exact ih s n x hx
    · exact ih _ _ x (List.mem_append_left _ hx)

/-- After `insert_ohlcv`, the key of every row of the inserted frame is
present in the resulting store. -/
theorem insert_keys_present (symbol timeframe : String) (df : List DfRow) :
    ∀ (s : List OhlcvRow) (n : ℕ) (r : DfRow), r ∈ df →
      KeyIn (df.foldl
        (fun acc r =>
          let row := mkRow symbol timeframe r
          if acc.1.any fun x => rowKey x = rowKey row then acc
          else (acc.1 ++ [row], acc.2 + 1))
        (s, n)).1 (rowKey (mkRow symbol timeframe r)) := by
  induction df with
  | nil => intro s n r hr; exact absurd hr (List.not_mem_nil r)
  | cons q rest ih =>
    intro s n r hr
    rcases List.mem_cons.mp hr with hEq | hMem
    · subst hEq
      simp only [List.foldl_cons]
      split
      · rename_i hin
        rw [any_eq_keyIn] at hin
        rcases hin with ⟨x, hx, hk⟩
        exact ⟨x, insert_fold_mono symbol timeframe rest s n x hx, hk⟩
      · refine ⟨mkRow symbol timeframe r, ?_, rfl⟩
        exact insert_fold_mono symbol timeframe rest _ _ _
          (List.mem_append_right _ (List.mem_singleton.mpr rfl))
    · simp only [List.foldl_cons]
      split
      · exact ih s n r hMem
      · exact ih _ _ r hMem

/-- When every key of the frame is already present, the fold of
`insert_ohlcv` is the identity on the accumulator. -/
theorem insert_fold_noop (symbol timeframe : String) (df : List DfRow) :
    ∀ (s : List OhlcvRow) (n : ℕ),
      (∀ r ∈ df, KeyIn s (rowKey (mkRow symbol timeframe r))) →
      df.foldl
        (fun acc r =>
          let row := mkRow symbol timeframe r
          if acc.1.any fun x => rowKey x = rowKey row then acc
          else (acc.1 ++ [row], acc.2 + 1))
        (s, n) = (s, n) := by
  induction df with
  | nil => intro s n _; rfl
  | cons r rest ih =>
    intro s n hall
    simp only [List.foldl_cons]
    split
    · exact ih s n fun q hq => hall q (List.mem_cons_of_mem r hq)
    · rename_i hnotin
      exact absurd ((any_eq_keyIn s (mkRow symbol timeframe r)).mpr
        (hall r (List.mem_cons_self r rest))) hnotin

/-- C9: insertion is idempotent on the composite key (time, symbol,
timeframe): after `insert_ohlcv store symbol timeframe df`, running the same
insertion again leaves the store unchanged and reports 0 rows inserted —
reinserting existing keys is a silent no-op, never an error. -/
theorem c9_insert_idempotent (store : List OhlcvRow) (symbol timeframe : String)
    (df : List DfRow) :
    insert_ohlcv (insert_ohlcv store symbol timeframe df).1 symbol timeframe df
      = ((insert_ohlcv store symbol timeframe df).1, 0) := by
  unfold insert_ohlcv
  exact insert_fold_noop symbol timeframe df _ 0
    fun r hr => insert_keys_present symbol timeframe df store 0 r hr

/-! ## Claim C6: incremental sync -/

/-- C6 counterexample: with no stored latest time, the incremental task
downloads the fixed period `'1y'` — not the timeframe-specific maximum
(`'max'` for the 1d timeframe, per `_get_period_for_timeframe`). -/
theorem c6_counterexample :
    (update_latest_data (fun _ => Except.ok []) [] none 0 false).fetched_period
        = some "1y"
    ∧ get_period_for_timeframe "1d" = "max"
    ∧ ("1y" : String) ≠ "max" := by
  refine ⟨rfl, rfl, by decide⟩

/-- C6 (amended): in incremental sync, an unset latest time triggers a full
download with the fixed period `'1y'` (not the timeframe-specific maximum);
otherwise, when not forced and the weekend-adjusted now is less than one
floor-day after the stored latest time (a flat one-day rule, not the
per-timeframe `is_stale` thresholds), the task skips with 0 rows and no
fetch; otherwise it fetches a `min(days_since + 1, 30)` day window and
inserts exactly the fetched candles whose time is strictly after the stored
latest time. -/
theorem c6_incremental (fetch : String → Except String (List ℤ))
    (existing : List ℤ) (now : ℤ) (force : Bool) :
    (update_latest_data fetch existing none now force
        = { rows := insertNewTimes existing (download_historical (fetch "1y")).df
            fetched_period := some "1y" })
    ∧ (∀ lt : ℤ, ¬ force → daysBetween (adjustNow now) lt < 1 →
        update_latest_data fetch existing (some lt) now force
          = { rows := 0, fetched_period := none })
    ∧ (∀ lt : ℤ, force = true ∨ 1 ≤ daysBetween (adjustNow now) lt →
        update_latest_data fetch existing (some lt) now force
          = { rows := insertNewTimes existing
                ((download_historical
                    (fetch (periodStr (min (daysBetween (adjustNow now) lt + 1) 30)))).df.filter
                  fun t => decide (lt < t))
              fetched_period :=
                some (periodStr (min (daysBetween (adjustNow now) lt + 1) 30)) }) := by
  refine ⟨rfl, ?_, ?_⟩
  · intro lt hforce hdays
    simp only [update_latest_data]
    rw [if_pos ⟨hforce, hdays⟩]
  · intro lt h
    simp only [update_latest_data]
    rw [if_neg (by
      rintro ⟨h1, h2⟩
      rcases h with h | h
      · exact h1 h
      · omega)]
    split_ifs with hdf hflt
    · rw [hdf]
      simp [insertNewTimes]
    · rw [hflt]
      simp [insertNewTimes]
    · rfl

/-- C6 witness: the amended behavior at concrete inputs — a skip when the
data is fresh, and a windowed fetch with strict-after filtering when it is
two days old. -/
theorem c6_witness :
    (update_latest_data (fun _ => Except.ok [100]) [] (some 0) 500 false
        = { rows := 0, fetched_period := none })
    ∧ (update_latest_data (fun _ => Except.ok [-10, 50]) [] (some 0) 4000 false
        = { rows := insertNewTimes []
              ((download_historical (Except.ok [-10, 50])).df.filter
                fun t => decide ((0:ℤ) < t))
            fetched_period := some (periodStr (min (daysBetween (adjustNow 4000) 0 + 1) 30)) }) :=
  ⟨(c6_incremental (fun _ => Except.ok [100]) [] 500 false).2.1 0 (by decide) (by decide),
   (c6_incremental (fun _ => Except.ok [-10, 50]) [] 4000 false).2.2 0 (Or.inr (by decide))⟩

/-! ## Claim C7: weekend / Monday-pre-market staleness correction

IST timestamps are minutes from an epoch at Monday 2025-11-10 00:00 IST:
Monday 2025-11-10 07:00 is `420`, Monday 09:10 is `550`, and Friday
2025-11-07 15:30 is `-3390`. -/

/-- C7 counterexample: at Monday 09:10 IST — a time the claim covers, being
before 09:15 — the code applies no correction (its cutoff is 09:00), judges
data last updated Friday 15:30 stale, fetches, and inserts one row, where
the claimed Friday-15:30 reference would give "not stale" and 0 rows. -/
theorem c7_counterexample :
    weekdayOf 550 = 0
    ∧ (550 : ℤ).emod 1440 < 9 * 60 + 15
    ∧ (update_latest_data (fun _ => Except.ok [-3000]) [] (some (-3390)) 550 false).rows
        = 1 := by
  refine ⟨by decide, by decide, ?_⟩
  rfl

/-- C7 (amended): the correction subtracts whole days from `now`, keeping
the time of day — one day on Saturday, two on Sunday, three on Monday
strictly before 09:00 (not 09:15) — and staleness is the floor-day
difference against the stored latest time computed from that shifted `now`;
in particular in scenario S2 (now = Monday 2025-11-10 07:00 IST, latest =
Friday 2025-11-07 15:30 IST) the Monday branch applies, the data is judged
not stale, and the incremental run inserts 0 rows without fetching. -/
theorem c7_weekend_correction (now latest : ℤ) :
    (weekdayOf now = 5 → adjustNow now = now - 1440)
    ∧ (weekdayOf now = 6 → adjustNow now = now - 2880)
    ∧ (weekdayOf now = 0 → hourOf now < 9 → adjustNow now = now - 4320)
    ∧ (weekdayOf now = 0 → hourOf now < 9 →
        daysBetween (adjustNow now) latest = daysBetween now latest - 3)
    ∧ (∀ fetch existing,
        update_latest_data fetch existing (some (-3390)) 420 false
          = { rows := 0, fetched_period := none }) := by
  have h56 : weekdayOf now = 5 → adjustNow now = now - 1440 := by
    intro h; unfold adjustNow; rw [if_pos h]
  have h6 : weekdayOf now = 6 → adjustNow now = now - 2880 := by
    intro h
    unfold adjustNow
    rw [if_neg (by omega), if_pos h]
    ring
  have h0 : weekdayOf now = 0 → hourOf now < 9 → adjustNow now = now - 4320 := by
    intro h hh
    unfold adjustNow
    rw [if_neg (by omega), if_neg (by omega), if_pos ⟨h, hh⟩]
    ring
  refine ⟨h56, h6, h0, ?_, ?_⟩
  · intro h hh
    rw [h0 h hh]
    unfold daysBetween
    rw [Int.fdiv_eq_ediv _ (by norm_num), Int.fdiv_eq_ediv _ (by norm_num)]
    omega
  · intro fetch existing
    simp only [update_latest_data]
    rw [if_pos ⟨by decide, by decide⟩]

/-- C7 witness: the Monday-pre-market branch of the amended claim at the S2
timestamps — the correction lands on Friday 07:00 and the floor-day
difference against Friday 15:30 is negative. -/
theorem c7_witness :
    adjustNow 420 = 420 - 4320
    ∧ daysBetween (adjustNow 420) (-3390) = daysBetween 420 (-3390) - 3
    ∧ update_latest_data (fun _ => Except.ok [7]) [] (some (-3390)) 420 false
        = { rows := 0, fetched_period := none } :=
  ⟨(c7_weekend_correction 420 (-3390)).2.2.1 (by decide) (by decide),
   (c7_weekend_correction 420 (-3390)).2.2.2.1 (by decide) (by decide),
   (c7_weekend_correction 420 (-3390)).2.2.2.2 (fun _ => Except.ok [7]) []⟩

/-! ## Claim C8: rate-limit classification and propagation -/

/-- C8 counterexample: a rate-limited fetch for symbol A does not produce a
per-task error result — `download_historical` swallows the exception and
the task reports success with 0 rows; the batch summary counts it among the
successes and has no per-error-kind counts at all. -/
theorem c8_counterexample :
    (sync_symbol (fun _ => Except.error "429 Too Many Requests") [] none 0
        "A" "1d" true false).status = "success"
    ∧ (sync_symbol (fun _ => Except.error "429 Too Many Requests") [] none 0
        "A" "1d" true false).error_type = none
    ∧ batch_summary
        [sync_symbol (fun _ => Except.error "429 Too Many Requests") [] none 0


          "A" "1d" true false,
         sync_symbol (fun _ => Except.ok [10, 20]) [] none 0 "B" "1d" true false,
         sync_symbol (fun _ => Except.ok [30, 40]) [] none 0 "C" "1d" true false]
        = { total_tasks := 3, successful := 3, failed := 0, total_rows := 4 } := by
  refine ⟨rfl, rfl, ?_⟩
  rfl

/-- C8 (amended): a failing vendor fetch is swallowed inside
`download_historical`, which classifies it for logging — empty/invalid
responses (`Expecting value …`) are classified as rate limiting, not as a
malformed-response kind — and returns an empty frame, so the per-task sync
result is status `success` with 0 rows and no error kind, for every mode;
the `RATE_LIMIT` classification of `sync_symbol` applies only to exceptions
that escape its body (e.g. from the store), where the `except` branch
produces `{status error, RATE_LIMIT, 0 rows}`; the batch summary holds only
success/failure counts and row totals. -/
theorem c8_rate_limit (msg : String) (existing : List ℤ) (latest : Option ℤ)
    (now : ℤ) (symbol timeframe : String) (full force : Bool) :
    (sync_symbol (fun _ => Except.error msg) existing latest now symbol timeframe
        full force).status = "success"
    ∧ (sync_symbol (fun _ => Except.error msg) existing latest now symbol timeframe
        full force).rows = 0
    ∧ (sync_symbol (fun _ => Except.error msg) existing latest now symbol timeframe
        full force).error_type = none
    ∧ classify_download_error "Expecting value: line 1 column 1 (char 0)" none
        = "RATE_LIMIT"
    ∧ classify_sync_error "Expecting value: line 1 column 1 (char 0)" = "RATE_LIMIT"
    ∧ sync_symbol_on_exception symbol timeframe "Expecting value: line 1 column 1 (char 0)"
        = { symbol := symbol, timeframe := timeframe, status := "error", rows := 0
            error_type := some "RATE_LIMIT" } := by
  have hrows : (sync_symbol (fun _ => Except.error msg) existing latest now symbol
      timeframe full force).rows = 0 := by
    unfold sync_symbol
    split
    · simp [download_historical, insertNewTimes]
    · rcases latest with _ | lt
      · simp [update_latest_data, download_historical, insertNewTimes]
      · simp only [update_latest_data]
        split_ifs with h1 h2 h3 <;> simp_all [download_historical]
  have hsync : classify_sync_error "Expecting value: line 1 column 1 (char 0)"
      = "RATE_LIMIT" := by decide
  refine ⟨?_, hrows, ?_, by decide, hsync, ?_⟩
  · unfold sync_symbol; split <;> rfl
  · unfold sync_symbol; split <;> rfl
  · unfold sync_symbol_on_exception
    rw [hsync]

/-! ## Claim C2: confidence composition and bounds -/

theorem b2n_le_one (p : Prop) [Decidable p] : b2n p ≤ 1 := by
  unfold b2n; split <;> omega

theorem score5_range (m : ℕ) (h : m ≤ 5) :
    0 ≤ (m : ℚ) / 5 * 100 ∧ (m : ℚ) / 5 * 100 ≤ 100 := by
  have hm : (m : ℚ) ≤ 5 := by exact_mod_cast h
  have hm0 : (0 : ℚ) ≤ (m : ℚ) := by positivity
  constructor <;> nlinarith

theorem score3_range (m : ℕ) (h : m ≤ 3) :
    0 ≤ (m : ℚ) / 3 * 100 ∧ (m : ℚ) / 3 * 100 ≤ 100 := by
  have hm : (m : ℚ) ≤ 3 := by exact_mod_cast h
  have hm0 : (0 : ℚ) ≤ (m : ℚ) := by positivity
  constructor <;> nlinarith

theorem peScore_bounds (x : Option ℚ) : -10 ≤ peScore x ∧ peScore x ≤ 10 := by
  rcases x with _ | pe
  · exact ⟨by decide, by decide⟩
  · simp only [peScore]
    split_ifs <;> exact ⟨by decide, by decide⟩

theorem roeScore_bounds (x : Option ℚ) : -10 ≤ roeScore x ∧ roeScore x ≤ 10 := by
  rcases x with _ | roe
  · exact ⟨by decide, by decide⟩
  · simp only [roeScore]
    split_ifs <;> exact ⟨by decide, by decide⟩

theorem debtScore_bounds (x : Option ℚ) : -10 ≤ debtScore x ∧ debtScore x ≤ 10 := by
  rcases x with _ | de
  · exact ⟨by decide, by decide⟩
  · simp only [debtScore]
    split_ifs <;> exact ⟨by decide, by decide⟩

theorem pbScore_bounds (x : Option ℚ) : -5 ≤ pbScore x ∧ pbScore x ≤ 5 := by
  rcases x with _ | pb
  · exact ⟨by decide, by decide⟩
  · simp only [pbScore]
    split_ifs <;> exact ⟨by decide, by decide⟩

theorem mcapScore_bounds (x : Option ℚ) : -5 ≤ mcapScore x ∧ mcapScore x ≤ 5 := by
  rcases x with _ | mc
  · exact ⟨by decide, by decide⟩
  · simp only [mcapScore]
    split_ifs <;> exact ⟨by decide, by decide⟩

theorem trend_met_le (df : ScoredDf ℚ) : (analyze_trend df).conditions_met ≤ 5 := by
  have h1 := b2n_le_one (lastD df.ema_8 > lastD df.ema_20 ∧ lastD df.ema_20 > lastD df.ema_50)
  have h2 := b2n_le_one (lastD df.close > lastD df.ema_8)
  have h3 := b2n_le_one (lastD df.macd > lastD df.macd_signal)
  have h4 := b2n_le_one (lastD df.macd > (0:ℚ))
  have h5 := b2n_le_one (lastD df.macd_hist > prevD df.macd_hist)
  exact add_le_add (add_le_add (add_le_add (add_le_add h1 h2) h3) h4) h5

theorem momentum_met_le (df : ScoredDf ℚ) : (analyze_momentum df).conditions_met ≤ 3 := by
  have h1 := b2n_le_one (40 ≤ lastD df.rsi ∧ lastD df.rsi ≤ (75:ℚ))
  have h2 := b2n_le_one (lastD df.stoch_k < (80:ℚ))
  have h3 := b2n_le_one (lastD df.stoch_k > lastD df.stoch_d)
  exact add_le_add (add_le_add h1 h2) h3

theorem volatility_met_le (df : ScoredDf ℚ) :
    (analyze_volatility df).conditions_met ≤ 3 := by
  have h1 := b2n_le_one (lastD df.close - lastD df.bb_lower
    < (lastD df.bb_upper - lastD df.bb_lower) * (3/10 : ℚ))
  have h2 := b2n_le_one (lastD df.atr > prevD df.atr)
  have h3 := b2n_le_one (lastD df.bb_width > prevD df.bb_width)
  exact add_le_add (add_le_add h1 h2) h3

/-- C2: on every frame of at least 50 candles and any fundamentals record,
the final confidence of `generate_signal` is
`clamp(0.40·trend + 0.35·momentum + 0.25·volatility + adjustment, 0, 100)`;
each category score is `(conditions_met / total_conditions) · 100` and lies
in [0, 100]; the raw fundamental score lies in [−40, 40] and the adjustment
is its half (so it lies in [−10·2, 10·2] = [−20, 20]), and is 0 when
fundamentals are absent; hence the technical confidence and the final
confidence lie in [0, 100]. -/
theorem c2_confidence (df : ScoredDf ℚ) (fund : Option (Fundamentals ℚ))
    (hlen : 50 ≤ df.close.length) :
    (finalConfidence df fund
      = max 0 (min 100 ((analyze df).trend.score * (40/100)
          + (analyze df).momentum.score * (35/100)
          + (analyze df).volatility.score * (25/100)
          + (score_fundamentals fund).adjustment)))
    ∧ ((analyze df).trend.score
        = ((analyze df).trend.conditions_met : ℚ) / ((analyze df).trend.total_conditions) * 100)
    ∧ ((analyze df).momentum.score
        = ((analyze df).momentum.conditions_met : ℚ) / ((analyze df).momentum.total_conditions) * 100)
    ∧ ((analyze df).volatility.score
        = ((analyze df).volatility.conditions_met : ℚ) / ((analyze df).volatility.total_conditions) * 100)
    ∧ (0 ≤ (analyze df).trend.score ∧ (analyze df).trend.score ≤ 100)
    ∧ (0 ≤ (analyze df).momentum.score ∧ (analyze df).momentum.score ≤ 100)
    ∧ (0 ≤ (analyze df).volatility.score ∧ (analyze df).volatility.score ≤ 100)
    ∧ (-40 ≤ (score_fundamentals fund).score ∧ (score_fundamentals fund).score ≤ 40)
    ∧ ((score_fundamentals fund).adjustment = ((score_fundamentals fund).score : ℚ) / 2)
    ∧ (-20 ≤ (score_fundamentals fund).adjustment
        ∧ (score_fundamentals fund).adjustment ≤ 20)
    ∧ (fund = none → (score_fundamentals fund).adjustment = 0)
    ∧ (0 ≤ (analyze df).confidence ∧ (analyze df).confidence ≤ 100)
    ∧ (0 ≤ finalConfidence df fund ∧ finalConfidence df fund ≤ 100) := by
  have ht := score5_range _ (trend_met_le df)
  have hm := score3_range _ (momentum_met_le df)
  have hv := score3_range _ (volatility_met_le df)
  have htS : (analyze df).trend.score
      = ((analyze df).trend.conditions_met : ℚ) / 5 * 100 := rfl
  have hmS : (analyze df).momentum.score
      = ((analyze df).momentum.conditions_met : ℚ) / 3 * 100 := rfl
  have hvS : (analyze df).volatility.score
      = ((analyze df).volatility.conditions_met : ℚ) / 3 * 100 := rfl
  have htB : 0 ≤ (analyze df).trend.score ∧ (analyze df).trend.score ≤ 100 := by
    rw [htS]; exact ht
  have hmB : 0 ≤ (analyze df).momentum.score ∧ (analyze df).momentum.score ≤ 100 := by
    rw [hmS]; exact hm
  have hvB : 0 ≤ (analyze df).volatility.score ∧ (analyze df).volatility.score ≤ 100 := by
    rw [hvS]; exact hv
  have hraw : -40 ≤ (score_fundamentals fund).score
      ∧ (score_fundamentals fund).score ≤ 40 := by
    rcases fund with _ | f
    · exact ⟨by decide, by decide⟩
    · simp only [score_fundamentals]
      have h1 := peScore_bounds f.trailing_pe
      have h2 := roeScore_bounds f.return_on_equity
      have h3 := debtScore_bounds f.debt_to_equity
      have h4 := pbScore_bounds f.price_to_book
      have h5 := mcapScore_bounds f.market_cap
      constructor <;> omega
  have hadj : (score_fundamentals fund).adjustment
      = ((score_fundamentals fund).score : ℚ) / 2 := by
    rcases fund with _ | f
    · simp [score_fundamentals]
    · rfl
  have hadjB : -20 ≤ (score_fundamentals fund).adjustment
      ∧ (score_fundamentals fund).adjustment ≤ 20 := by
    rw [hadj]
    have h1 : (-40 : ℚ) ≤ ((score_fundamentals fund).score : ℚ) := by
      exact_mod_cast hraw.1
    have h2 : ((score_fundamentals fund).score : ℚ) ≤ 40 := by exact_mod_cast hraw.2
    constructor <;> linarith
  have hconf : (analyze df).confidence
      = (analyze df).trend.score * (40/100) + (analyze df).momentum.score * (35/100)
        + (analyze df).volatility.score * (25/100) := rfl
  have hconfB : 0 ≤ (analyze df).confidence ∧ (analyze df).confidence ≤ 100 := by
    rw [hconf]
    obtain ⟨t0, t1⟩ := htB
    obtain ⟨m0, m1⟩ := hmB
    obtain ⟨v0, v1⟩ := hvB
    constructor <;> nlinarith
  refine ⟨?_, htS, hmS, hvS, htB, hmB, hvB, hraw, hadj, hadjB, ?_, hconfB, ?_, ?_⟩
  · unfold finalConfidence
    rw [hconf]
  · rintro rfl
    rfl
  · exact le_max_left 0 _
  · exact max_le (by norm_num) (min_le_left 100 _)

/-- C2 witness: the confidence decomposition at a concrete 50-row frame
with P/E-only fundamentals. -/
theorem c2_witness :
    50 ≤ dfC2.close.length
    ∧ (finalConfidence dfC2 (some fundC2)
      = max 0 (min 100 ((analyze dfC2).trend.score * (40/100)
          + (analyze dfC2).momentum.score * (35/100)
          + (analyze dfC2).volatility.score * (25/100)
          + (score_fundamentals (some fundC2)).adjustment))) :=
  ⟨by decide,
   (c2_confidence dfC2 (some fundC2) (by decide)).1⟩

/-! ## Claim C3: emission rule -/

/-- C3: `generate_signal` emits a signal exactly when the final confidence
reaches `min_confidence` and at least two categories are strong — except
that one strong category suffices when `min_confidence < 60`; and every
emitted signal is a BUY (no SELL or SHORT is ever produced). -/
theorem c3_emission (df : ScoredDf ℚ) (fund : Option (Fundamentals ℚ)) (minc : ℚ) :
    ((generate_signal df fund minc).isSome ↔
      (minc ≤ finalConfidence df fund ∧
        (2 ≤ (analyze df).strong_conditions ∨
          (minc < 60 ∧ 1 ≤ (analyze df).strong_conditions))))
    ∧ (∀ s, generate_signal df fund minc = some s → s.signal_type = "BUY") := by
  unfold generate_signal
  by_cases h1 : finalConfidence df fund < minc
  · rw [if_pos h1]
    constructor
    · simp only [Option.isSome_none, Bool.false_eq_true, false_iff]
      rintro ⟨hc, -⟩
      exact absurd hc (not_le.mpr h1)
    · intro s h; cases h
  · rw [if_neg h1]
    by_cases h2 : (analyze df).strong_conditions < 2
        ∧ (analyze df).strong_conditions < (if 60 ≤ minc then 2 else 1)
    · rw [if_pos h2]
      constructor
      · simp only [Option.isSome_none, Bool.false_eq_true, false_iff]
        obtain ⟨h2a, h2b⟩ := h2
        rintro ⟨-, h3 | ⟨hm, h3⟩⟩
        · omega
        · rw [if_neg (not_le.mpr hm)] at h2b
          omega
      · intro s h; cases h
    · rw [if_neg h2]
      constructor
      · simp only [Option.isSome_some, true_iff]
        refine ⟨not_lt.mp h1, ?_⟩
        by_cases h60 : 60 ≤ minc
        · rw [if_pos h60] at h2
          left; omega
        · rw [if_neg h60] at h2
          by_cases hs : 2 ≤ (analyze df).strong_conditions
          · exact Or.inl hs
          · right
            exact ⟨not_le.mp h60, by omega⟩
      · intro s h
        cases h
        rfl

/-- C3 witness: on `dfC3` without fundamentals, at the default threshold 65,
a signal is emitted (final confidence 68, two strong categories). -/
theorem c3_witness : (generate_signal dfC3 none (65 : ℚ)).isSome :=
  (c3_emission dfC3 none 65).1.mpr (by
    constructor
    · norm_num [finalConfidence, analyze, analyze_trend, analyze_momentum,
        analyze_volatility, score_fundamentals, b2n, lastD, prevD, dfC3]
    · left
      norm_num [analyze, analyze_trend, analyze_momentum,
        analyze_volatility, b2n, lastD, prevD, dfC3])

/-! ## Claim C5: swing level construction and touch counting -/

theorem dedupLoop_shape {kind : String} {mk : ℚ → ℕ} :
    ∀ (cands : List (ℕ × ℚ)) (seen : List ℚ) (lv : SRLevel ℚ),
      lv ∈ (dedupLoop kind mk cands seen).1 →
      ∃ p ∈ cands,
        lv = { price := p.2, idx := p.1, touches := mk p.2, strength := mk p.2
               kind := kind } := by
  intro cands
  induction cands with
  | nil => intro seen lv h; simp [dedupLoop] at h
  | cons p rest ih =>
    rcases p with ⟨i, price⟩
    intro seen lv h
    rw [dedupLoop] at h
    split at h
    · rcases ih _ lv h with ⟨q, hq, hlv⟩
      exact ⟨q, List.mem_cons_of_mem _ hq, hlv⟩
    · rcases List.mem_cons.mp h with hEq | hMem
      · exact ⟨(i, price), List.mem_cons_self _ _, hEq⟩
      · rcases ih _ lv hMem with ⟨q, hq, hlv⟩
        exact ⟨q, List.mem_cons_of_mem _ hq, hlv⟩

theorem dedupLoop_seen_extends {kind : String} {mk : ℚ → ℕ} :
    ∀ (cands : List (ℕ × ℚ)) (seen : List ℚ) (x : ℚ), x ∈ seen →
      x ∈ (dedupLoop kind mk cands seen).2 := by
  intro cands
  induction cands with
  | nil => intro seen x hx; exact hx
  | cons p rest ih =>
    rcases p with ⟨i, price⟩
    intro seen x hx
    rw [dedupLoop]
    split
    · exact ih seen x hx
    · exact ih _ x (List.mem_cons_of_mem _ hx)

theorem dedupLoop_mem_seen {kind : String} {mk : ℚ → ℕ} :
    ∀ (cands : List (ℕ × ℚ)) (seen : List ℚ) (lv : SRLevel ℚ),
      lv ∈ (dedupLoop kind mk cands seen).1 →
      round2 lv.price ∈ (dedupLoop kind mk cands seen).2 := by
  intro cands
  induction cands with
  | nil => intro seen lv h; simp [dedupLoop] at h
  | cons p rest ih =>
    rcases p with ⟨i, price⟩
    intro seen lv h
    rw [dedupLoop] at h ⊢
    split at h <;> rename_i hseen
    · rw [if_pos hseen]
      exact ih seen lv h
    · rw [if_neg hseen]
      rcases List.mem_cons.mp h with hEq | hMem
      · subst hEq
        exact dedupLoop_seen_extends rest _ _ (List.mem_cons_self _ _)
      · exact ih _ lv hMem

theorem dedupLoop_not_seen {kind : String} {mk : ℚ → ℕ} :
    ∀ (cands : List (ℕ × ℚ)) (seen : List ℚ) (lv : SRLevel ℚ),
      lv ∈ (dedupLoop kind mk cands seen).1 → round2 lv.price ∉ seen := by
  intro cands
  induction cands with
  | nil => intro seen lv h; simp [dedupLoop] at h
  | cons p rest ih =>
    rcases p with ⟨i, price⟩
    intro seen lv h
    rw [dedupLoop] at h
    split at h <;> rename_i hseen
    · exact ih seen lv h
    · rcases List.mem_cons.mp h with hEq | hMem
      · subst hEq
        exact hseen
      · intro hx
        exact ih _ lv hMem (List.mem_cons_of_mem _ hx)

theorem dedupLoop_pairwise {kind : String} {mk : ℚ → ℕ} :
    ∀ (cands : List (ℕ × ℚ)) (seen : List ℚ),
      ((dedupLoop kind mk cands seen).1).Pairwise
        (fun a b => round2 a.price ≠ round2 b.price) := by
  intro cands
  induction cands with
  | nil => intro seen; simp [dedupLoop]
  | cons p rest ih =>
    rcases p with ⟨i, price⟩
    intro seen
    rw [dedupLoop]
    split <;> rename_i hseen
    · exact ih seen
    · refine List.Pairwise.cons ?_ (ih _)
      intro b hb
      have := dedupLoop_not_seen rest _ b hb
      intro hEq
      exact this (hEq ▸ List.mem_cons_self _ _)

theorem pivotAppend_shape {lastIdx : ℕ} :
    ∀ (entries : List (String × ℚ)) (seen : List ℚ) (lv : SRLevel ℚ),
      lv ∈ pivotAppend lastIdx entries seen →
      ∃ e ∈ entries,
        lv = { price := e.2, idx := lastIdx, touches := 1, strength := 2
               kind := e.1 } := by
  intro entries
  induction entries with
  | nil => intro seen lv h; simp [pivotAppend] at h
  | cons e rest ih =>
    rcases e with ⟨name, price⟩
    intro seen lv h
    rw [pivotAppend] at h
    split at h
    · rcases ih _ lv h with ⟨q, hq, hlv⟩
      exact ⟨q, List.mem_cons_of_mem _ hq, hlv⟩
    · rcases List.mem_cons.mp h with hEq | hMem
      · exact ⟨(name, price), List.mem_cons_self _ _, hEq⟩
      · rcases ih _ lv hMem with ⟨q, hq, hlv⟩
        exact ⟨q, List.mem_cons_of_mem _ hq, hlv⟩

theorem pivotAppend_not_seen {lastIdx : ℕ} :
    ∀ (entries : List (String × ℚ)) (seen : List ℚ) (lv : SRLevel ℚ),
      lv ∈ pivotAppend lastIdx entries seen → round2 lv.price ∉ seen := by
  intro entries
  induction entries with
  | nil => intro seen lv h; simp [pivotAppend] at h
  | cons e rest ih =>
    rcases e with ⟨name, price⟩
    intro seen lv h
    rw [pivotAppend] at h
    split at h <;> rename_i hseen
    · exact ih seen lv h
    · rcases List.mem_cons.mp h with hEq | hMem
      · subst hEq
        exact hseen
      · intro hx
        exact ih _ lv hMem (List.mem_cons_of_mem _ hx)

theorem pivotAppend_pairwise {lastIdx : ℕ} :
    ∀ (entries : List (String × ℚ)) (seen : List ℚ),
      (pivotAppend lastIdx entries seen).Pairwise
        (fun a b => round2 a.price ≠ round2 b.price) := by
  intro entries
  induction entries with
  | nil => intro seen; simp [pivotAppend]
  | cons e rest ih =>
    rcases e with ⟨name, price⟩
    intro seen
    rw [pivotAppend]
    split <;> rename_i hseen
    · exact ih seen
    · refine List.Pairwise.cons ?_ (ih _)
      intro b hb
      have := pivotAppend_not_seen rest _ b hb
      intro hEq
      exact this (hEq ▸ List.mem_cons_self _ _)

/-- C5 (amended): in `find_resistance_levels df lookback`, every level
tagged `resistance` is a swing level: its price is the high of a candle
among the last `lookback` candles whose centered rolling-window (width 10)
maximum equals that high, its `touches` is the number of candles of the
**whole** dataframe — not only the last `lookback` candles — whose high or
low lies within ±1% of the level, and its strength equals its touches;
moreover the levels of the returned list have pairwise distinct prices
after rounding to 2 decimals (the deduplication), and the list is sorted by
ascending price. -/
theorem c5_swing_levels (df : Df ℚ) (lookback : ℕ) :
    (∀ lv ∈ find_resistance_levels df lookback, lv.kind = "resistance" →
      (∃ i, (tailN lookback df.high).get? i = some lv.price
          ∧ centeredMax10 (tailN lookback df.high) i = some lv.price)
      ∧ lv.touches = count_touches df lv.price (1/100)
      ∧ lv.strength = lv.touches)
    ∧ (find_resistance_levels df lookback).Pairwise
        (fun a b => round2 a.price ≠ round2 b.price)
    ∧ List.Sorted (fun a b : SRLevel ℚ => a.price ≤ b.price)
        (find_resistance_levels df lookback) := by
  have hmemiff : ∀ lv : SRLevel ℚ, lv ∈ find_resistance_levels df lookback ↔
      lv ∈ (dedupLoop "resistance" (fun p => count_touches df p (1/100))
            (peakPositions (tailN lookback df.high)) []).1
        ++ pivotAppend (df.high.length - 1)
            [("pivot_r1", (find_pivot_levels df).r1),
             ("pivot_r2", (find_pivot_levels df).r2),
             ("pivot_r3", (find_pivot_levels df).r3)]
            (dedupLoop "resistance" (fun p => count_touches df p (1/100))
              (peakPositions (tailN lookback df.high)) []).2 := by
    intro lv
    unfold find_resistance_levels sortByPrice
    exact List.mem_insertionSort _
  refine ⟨?_, ?_, ?_⟩
  · intro lv hlv hkind
    rcases List.mem_append.mp ((hmemiff lv).mp hlv) with hsw | hpiv
    · rcases dedupLoop_shape _ _ lv hsw with ⟨p, hp, hshape⟩
      have hpk := hp
      unfold peakPositions at hpk
      rw [List.mem_filter] at hpk
      obtain ⟨henum, hmax⟩ := hpk
      rw [decide_eq_true_iff] at hmax
      have hget := List.mem_enum_iff_get?.mp henum
      subst hshape
      refine ⟨⟨p.1, ?_, hmax⟩, rfl, rfl⟩
      simpa using hget
    · rcases pivotAppend_shape _ _ lv hpiv with ⟨e, he, hshape⟩
      subst hshape
      simp only [List.mem_cons, List.not_mem_nil, or_false] at he
      rcases he with h | h | h
      · subst h
        exact absurd hkind (by decide : ("pivot_r1" : String) ≠ "resistance")
      · subst h
        exact absurd hkind (by decide : ("pivot_r2" : String) ≠ "resistance")
      · subst h
        exact absurd hkind (by decide : ("pivot_r3" : String) ≠ "resistance")
  · have hperm : List.Perm (find_resistance_levels df lookback)
        ((dedupLoop "resistance" (fun p => count_touches df p (1/100))
            (peakPositions (tailN lookback df.high)) []).1
          ++ pivotAppend (df.high.length - 1)
              [("pivot_r1", (find_pivot_levels df).r1),
               ("pivot_r2", (find_pivot_levels df).r2),
               ("pivot_r3", (find_pivot_levels df).r3)]
              (dedupLoop "resistance" (fun p => count_touches df p (1/100))
                (peakPositions (tailN lookback df.high)) []).2) := by
      unfold find_resistance_levels sortByPrice
      exact List.perm_insertionSort _ _
    rw [List.Perm.pairwise_iff (fun h => Ne.symm h) hperm]
    rw [List.pairwise_append]
    refine ⟨dedupLoop_pairwise _ _, pivotAppend_pairwise _ _, ?_⟩
    intro a ha b hb
    have hmem := dedupLoop_mem_seen _ _ a ha
    have hnot := pivotAppend_not_seen _ _ b hb
    intro hEq
    exact hnot (hEq ▸ hmem)
  · unfold find_resistance_levels sortByPrice
    haveI : IsTotal (SRLevel ℚ) (fun a b => a.price ≤ b.price) :=
      ⟨fun a b => le_total a.price b.price⟩
    haveI : IsTrans (SRLevel ℚ) (fun a b => a.price ≤ b.price) :=
      ⟨fun _ _ _ hab hbc => le_trans hab hbc⟩
    exact List.sorted_insertionSort _ _

set_option maxHeartbeats 4000000 in
set_option maxRecDepth 4000 in
/-- C5 counterexample: on a 51-candle frame whose oldest candle — outside
the 50-candle tail — touches the swing level at 110 formed inside the tail,
the touches counted by the code (over the whole frame) differ from the
touches the claim describes (over the last 50 candles only): the code
reports [50, 1, 1, 2] against the claim's [50, 1, 1, 1]. -/
theorem c5_counterexample :
    (find_resistance_levels dfC5 50).map SRLevel.touches
      ≠ (find_resistance_levels_spec dfC5 50).map SRLevel.touches := by
  norm_num [find_resistance_levels, find_resistance_levels_spec, dfC5, tailN,
    peakPositions, centeredMax10, winMax, count_touches, dedupLoop, pivotAppend,
    find_pivot_levels, sortByPrice, lastD, round2, roundHalfEven,
    List.insertionSort, List.orderedInsert, List.enum, List.enumFrom,
    List.filter_cons, decide_eq_true_eq, List.replicate, List.zip, List.zipWith,
    List.getLastD, max_def, min_def]

set_option maxHeartbeats 1000000 in
set_option maxRecDepth 4000 in
/-- C5 witness: the amended characterization instantiated at the concrete
10-candle frame `dfC5w` and its swing level at 110: the level is in the
output, its price is a tail high achieving the centered rolling maximum,
and its touches count the whole frame. -/
theorem c5_witness :
    lvC5w ∈ find_resistance_levels dfC5w 50
    ∧ ((∃ i, (tailN 50 dfC5w.high).get? i = some lvC5w.price
          ∧ centeredMax10 (tailN 50 dfC5w.high) i = some lvC5w.price)
      ∧ lvC5w.touches = count_touches dfC5w lvC5w.price (1/100)
      ∧ lvC5w.strength = lvC5w.touches) :=
  have hmem : lvC5w ∈ find_resistance_levels dfC5w 50 := by
    norm_num [find_resistance_levels, dfC5w, lvC5w, tailN,
      peakPositions, centeredMax10, winMax, count_touches, dedupLoop, pivotAppend,
      find_pivot_levels, sortByPrice, lastD, round2, roundHalfEven,
      List.insertionSort, List.orderedInsert, List.enum, List.enumFrom,
      List.filter_cons, decide_eq_true_eq, List.replicate, List.zip, List.zipWith,
      List.getLastD, max_def, min_def]
  ⟨hmem, (c5_swing_levels dfC5w 50).1 lvC5w hmem rfl⟩

/-! ## Claim C1: cast and evaluation lemmas -/

/-- `getLastD` commutes with casting a rational column into `ℝ`. -/
theorem getLastD_map_real (qs : List ℚ) :
    (qs.map fun q => (q : ℝ)).getLastD 0 = ((qs.getLastD 0 : ℚ) : ℝ) := by
  induction qs with
  | nil => simp
  | cons a l ih =>
    cases l with
    | nil => simp
    | cons b t => simpa [List.getLastD_cons] using ih

/-- `iloc[-1]` of a cast rational column is the cast of `iloc[-1]`. -/
theorem lastD_map_real (qs : List ℚ) :
    lastD (qs.map fun q => (q : ℝ)) = ((lastD qs : ℚ) : ℝ) :=
  getLastD_map_real qs

/-- `dropLast` commutes with casting a rational column into `ℝ`. -/
theorem dropLast_map_real (qs : List ℚ) :
    (qs.map fun q => (q : ℝ)).dropLast = qs.dropLast.map fun q => (q : ℝ) := by
  induction qs with
  | nil => simp
  | cons a l ih =>
    cases l with
    | nil => simp
    | cons b t => simpa using ih

/-- `iloc[-2]` of a cast rational column is the cast of `iloc[-2]`. -/
theorem prevD_map_real (qs : List ℚ) :
    prevD (qs.map fun q => (q : ℝ)) = ((prevD qs : ℚ) : ℝ) := by
  show lastD ((qs.map fun q => (q : ℝ)).dropLast) = ((lastD qs.dropLast : ℚ) : ℝ)
  rw [dropLast_map_real]
  exact lastD_map_real qs.dropLast

set_option maxRecDepth 16000 in
set_option maxHeartbeats 1600000 in
/-- The exact last EMA-8/20/50 values on the C1 closes. -/
theorem c1_ema_vals : lastD (emaCol 8 clC1) = e8C1v
    ∧ lastD (emaCol 20 clC1) = e20C1v
    ∧ lastD (emaCol 50 clC1) = 240691/500 := by
  norm_num [emaCol, emaRec, clC1, lastD, List.getLastD, List.replicate, e8C1v, e20C1v]

set_option maxRecDepth 16000 in
set_option maxHeartbeats 2000000 in
/-- The exact EMA-12 column on the C1 closes. -/
theorem c1_stage_e12 : emaCol 12 clC1 = e12C1 := by
  norm_num [emaCol, emaRec, clC1, e12C1, List.replicate]

set_option maxRecDepth 16000 in
set_option maxHeartbeats 2000000 in
/-- The exact EMA-26 column on the C1 closes. -/
theorem c1_stage_e26 : emaCol 26 clC1 = e26C1 := by
  norm_num [emaCol, emaRec, clC1, e26C1, List.replicate]

set_option maxRecDepth 16000 in
set_option maxHeartbeats 4000000 in
/-- The exact MACD column on the C1 closes. -/
theorem c1_stage_macd : macdCol clC1 = macdC1v := by
  rw [macdCol, c1_stage_e12, c1_stage_e26]
  norm_num [e12C1, e26C1, macdC1v, List.zipWith]

set_option maxRecDepth 16000 in
set_option maxHeartbeats 4000000 in
/-- The exact MACD-signal column on the C1 closes. -/
theorem c1_stage_sig : macdSignalCol clC1 = sigC1v := by
  rw [macdSignalCol, c1_stage_macd]
  norm_num [macdC1v, sigC1v, emaCol, emaRec, List.replicate]

set_option maxRecDepth 16000 in
set_option maxHeartbeats 4000000 in
/-- The exact last and second-to-last MACD, signal and histogram values on
the C1 closes. -/
theorem c1_macd_vals :
    lastD (macdCol clC1) = macdC1last ∧ lastD (macdSignalCol clC1) = sigC1last
    ∧ lastD (macdHistCol clC1) = h49C1v ∧ prevD (macdHistCol clC1) = h48C1v := by
  rw [macdHistCol, c1_stage_macd, c1_stage_sig]
  norm_num [macdC1v, sigC1v, lastD, prevD, List.getLastD, List.dropLast, List.zipWith,
    macdC1last, sigC1last, h49C1v, h48C1v]

set_option maxRecDepth 16000 in
set_option maxHeartbeats 4000000 in
/-- The exact last RSI-14 value on the C1 closes. -/
theorem c1_rsi_val : lastD (rsiCol 14 clC1) = rsiC1v := by
  norm_num [rsiCol, rsiRec, rsiVal, avgGain, avgLoss, diffsCol, clC1, lastD,
    List.getLastD, List.replicate, List.zipWith, max_def, rsiC1v]

set_option maxRecDepth 16000 in
set_option maxHeartbeats 4000000 in
/-- The exact last slow-stochastic %K and %D values on the C1 window. -/
theorem c1_kd_vals : lastD (smoothCol 3 13 (fastkCol 14 hiC1 loC1 clC1)) = 3400/399
    ∧ lastD (smoothCol 3 15 (smoothCol 3 13 (fastkCol 14 hiC1 loC1 clC1))) = 400/63 := by
  norm_num [smoothCol, fastkCol, winMax, winMin, hiC1, loC1, clC1, lastD,
    List.getLastD, List.enum, List.enumFrom, max_def, min_def]

set_option maxRecDepth 16000 in
set_option maxHeartbeats 4000000 in
/-- The exact last and second-to-last ATR-14 values on the C1 window. -/
theorem c1_atr_vals : lastD (atrCol 14 hiC1 loC1 clC1) = atr49C1v
    ∧ prevD (atrCol 14 hiC1 loC1 clC1) = atr48C1v := by
  norm_num [atrCol, wilderRec, trCol, hiC1, loC1, clC1, lastD, prevD, List.getLastD,
    List.replicate, List.zip, List.zipWith, List.dropLast, abs_eq_max_neg, max_def,
    atr49C1v, atr48C1v]

/-- The last and second-to-last entries of every indicator column of the C1
frame, as casts of their exact rational values. -/
theorem c1_cols :
    lastD dfC1.ema_8 = ((e8C1v : ℚ) : ℝ)
    ∧ lastD dfC1.ema_20 = ((e20C1v : ℚ) : ℝ)
    ∧ lastD dfC1.ema_50 = ((240691/500 : ℚ) : ℝ)
    ∧ lastD dfC1.close = ((2408/5 : ℚ) : ℝ)
    ∧ lastD dfC1.macd = ((macdC1last : ℚ) : ℝ)
    ∧ lastD dfC1.macd_signal = ((sigC1last : ℚ) : ℝ)
    ∧ lastD dfC1.macd_hist = ((h49C1v : ℚ) : ℝ)
    ∧ prevD dfC1.macd_hist = ((h48C1v : ℚ) : ℝ)
    ∧ lastD dfC1.rsi = ((rsiC1v : ℚ) : ℝ)
    ∧ lastD dfC1.stoch_k = ((3400/399 : ℚ) : ℝ)
    ∧ lastD dfC1.stoch_d = ((400/63 : ℚ) : ℝ)
    ∧ lastD dfC1.atr = ((atr49C1v : ℚ) : ℝ)
    ∧ prevD dfC1.atr = ((atr48C1v : ℚ) : ℝ) := by
  refine ⟨?_, ?_, ?_, ?_, ?_, ?_, ?_, ?_, ?_, ?_, ?_, ?_, ?_⟩
  · rw [show dfC1.ema_8 = (emaCol 8 clC1).map fun q => (q : ℝ) from rfl,
      lastD_map_real, c1_ema_vals.1]
  · rw [show dfC1.ema_20 = (emaCol 20 clC1).map fun q => (q : ℝ) from rfl,
      lastD_map_real, c1_ema_vals.2.1]
  · rw [show dfC1.ema_50 = (emaCol 50 clC1).map fun q => (q : ℝ) from rfl,
      lastD_map_real, c1_ema_vals.2.2]
  · rw [show dfC1.close = clC1.map fun q => (q : ℝ) from rfl, lastD_map_real]
    norm_num [clC1, lastD, List.getLastD]
  · rw [show dfC1.macd = (macdCol clC1).map fun q => (q : ℝ) from rfl,
      lastD_map_real, c1_macd_vals.1]
  · rw [show dfC1.macd_signal = (macdSignalCol clC1).map fun q => (q : ℝ) from rfl,
      lastD_map_real, c1_macd_vals.2.1]
  · rw [show dfC1.macd_hist = (macdHistCol clC1).map fun q => (q : ℝ) from rfl,
      lastD_map_real, c1_macd_vals.2.2.1]
  · rw [show dfC1.macd_hist = (macdHistCol clC1).map fun q => (q : ℝ) from rfl,
      prevD_map_real, c1_macd_vals.2.2.2]
  · rw [show dfC1.rsi = (rsiCol 14 clC1).map fun q => (q : ℝ) from rfl,
      lastD_map_real, c1_rsi_val]
  · rw [show dfC1.stoch_k
        = (smoothCol 3 13 (fastkCol 14 hiC1 loC1 clC1)).map fun q => (q : ℝ) from rfl,
      lastD_map_real, c1_kd_vals.1]
  · rw [show dfC1.stoch_d
        = (smoothCol 3 15 (smoothCol 3 13 (fastkCol 14 hiC1 loC1 clC1))).map
            fun q => (q : ℝ) from rfl,
      lastD_map_real, c1_kd_vals.2]
  · rw [show dfC1.atr = (atrCol 14 hiC1 loC1 clC1).map fun q => (q : ℝ) from rfl,
      lastD_map_real, c1_atr_vals.1]
  · rw [show dfC1.atr = (atrCol 14 hiC1 loC1 clC1).map fun q => (q : ℝ) from rfl,
      prevD_map_real, c1_atr_vals.2]

set_option maxRecDepth 16000 in
set_option maxHeartbeats 4000000 in
/-- The last and second-to-last Bollinger-band entries of the C1 frame. -/
theorem c1_bb_vals :
    lastD dfC1.bb_upper = ((48683/100 : ℚ) : ℝ) + 2 * Real.sqrt ((174831/10000 : ℚ) : ℝ)
    ∧ lastD dfC1.bb_lower = ((48683/100 : ℚ) : ℝ) - 2 * Real.sqrt ((174831/10000 : ℚ) : ℝ)
    ∧ lastD dfC1.bb_width =
        (((48683/100 : ℚ) : ℝ) + 2 * Real.sqrt ((174831/10000 : ℚ) : ℝ))
          - (((48683/100 : ℚ) : ℝ) - 2 * Real.sqrt ((174831/10000 : ℚ) : ℝ))
    ∧ prevD dfC1.bb_width =
        (((19481/40 : ℚ) : ℝ) + 2 * Real.sqrt ((129327/8000 : ℚ) : ℝ))
          - (((19481/40 : ℚ) : ℝ) - 2 * Real.sqrt ((129327/8000 : ℚ) : ℝ)) := by
  refine ⟨?_, ?_, ?_, ?_⟩
  · rw [show dfC1.bb_upper = List.zipWith (fun m s => ((m : ℝ) + 2 * Real.sqrt (s : ℝ)))
        (smaCol 20 clC1) (varCol 20 clC1) from rfl]
    norm_num [smaCol, varCol, clC1, lastD, List.getLastD, List.zipWith, List.enum,
      List.enumFrom]
  · rw [show dfC1.bb_lower = List.zipWith (fun m s => ((m : ℝ) - 2 * Real.sqrt (s : ℝ)))
        (smaCol 20 clC1) (varCol 20 clC1) from rfl]
    norm_num [smaCol, varCol, clC1, lastD, List.getLastD, List.zipWith, List.enum,
      List.enumFrom]
  · rw [show dfC1.bb_width = List.zipWith
        (fun m s => (((m : ℝ) + 2 * Real.sqrt (s : ℝ)) - ((m : ℝ) - 2 * Real.sqrt (s : ℝ))))
        (smaCol 20 clC1) (varCol 20 clC1) from rfl]
    norm_num [smaCol, varCol, clC1, lastD, List.getLastD, List.zipWith, List.enum,
      List.enumFrom]
  · rw [show dfC1.bb_width = List.zipWith
        (fun m s => (((m : ℝ) + 2 * Real.sqrt (s : ℝ)) - ((m : ℝ) - 2 * Real.sqrt (s : ℝ))))
        (smaCol 20 clC1) (varCol 20 clC1) from rfl]
    norm_num [smaCol, varCol, clC1, prevD, List.getLastD, List.dropLast, List.zipWith,
      List.enum, List.enumFrom]

/-- `analyze_trend` on the C1 frame: exactly the two MACD-level conditions
hold (2 of 5, score 40). -/
theorem c1_trend_eval : analyze_trend dfC1 =
    { score := 40, conditions_met := 2, total_conditions := 5 } := by
  obtain ⟨h8, h20, h50, hc, hm, hs, hh, hh2, -, -, -, -, -⟩ := c1_cols
  simp only [analyze_trend, h8, h20, h50, hc, hm, hs, hh, hh2, b2n]
  norm_num [e8C1v, e20C1v, macdC1last, sigC1last, h49C1v, h48C1v]

/-- `analyze_momentum` on the C1 frame: all three conditions hold. -/
theorem c1_momentum_eval : analyze_momentum dfC1 =
    { score := 100, conditions_met := 3, total_conditions := 3 } := by
  obtain ⟨-, -, -, -, -, -, -, -, hr, hk, hd, -, -⟩ := c1_cols
  simp only [analyze_momentum, hr, hk, hd, b2n]
  norm_num [rsiC1v]

/-- `analyze_volatility` on the C1 frame: all three conditions hold (the
close sits in the lower 30% of the bands, the ATR rose, the bands widened). -/
theorem c1_volatility_eval : analyze_volatility dfC1 =
    { score := 100, conditions_met := 3, total_conditions := 3 } := by
  obtain ⟨hu, hl, hw, hw2⟩ := c1_bb_vals
  obtain ⟨-, -, -, hc, -, -, -, -, -, -, -, ha, ha2⟩ := c1_cols
  have hs : Real.sqrt ((174831/10000 : ℚ) : ℝ) < 6.5375 := by
    have h1 : ((174831/10000 : ℚ) : ℝ) < 6.5375 ^ 2 := by push_cast; norm_num
    exact (Real.sqrt_lt' (by norm_num)).mpr h1
  have hmono : Real.sqrt ((129327/8000 : ℚ) : ℝ) < Real.sqrt ((174831/10000 : ℚ) : ℝ) :=
    Real.sqrt_lt_sqrt (by positivity) (by push_cast; norm_num)
  have eCM : ((48683/100 : ℚ) : ℝ) - ((2408/5 : ℚ) : ℝ) = 523/100 := by
    push_cast; norm_num
  have hcond1 : ((2408/5 : ℚ) : ℝ)
        - (((48683/100 : ℚ) : ℝ) - 2 * Real.sqrt ((174831/10000 : ℚ) : ℝ))
      < ((((48683/100 : ℚ) : ℝ) + 2 * Real.sqrt ((174831/10000 : ℚ) : ℝ))
          - (((48683/100 : ℚ) : ℝ) - 2 * Real.sqrt ((174831/10000 : ℚ) : ℝ))) * (3/10) := by
    nlinarith [hs, Real.sqrt_nonneg ((174831/10000 : ℚ) : ℝ), eCM]
  have hcond2 : ((atr49C1v : ℚ) : ℝ) > ((atr48C1v : ℚ) : ℝ) := by
    norm_num [atr49C1v, atr48C1v]
  have hcond3 : (((48683/100 : ℚ) : ℝ) + 2 * Real.sqrt ((174831/10000 : ℚ) : ℝ))
        - (((48683/100 : ℚ) : ℝ) - 2 * Real.sqrt ((174831/10000 : ℚ) : ℝ))
      > (((19481/40 : ℚ) : ℝ) + 2 * Real.sqrt ((129327/8000 : ℚ) : ℝ))
        - (((19481/40 : ℚ) : ℝ) - 2 * Real.sqrt ((129327/8000 : ℚ) : ℝ)) := by
    nlinarith [hmono]
  simp only [analyze_volatility, hu, hl, hw, hw2, hc, ha, ha2, b2n]
  rw [if_pos hcond1, if_pos hcond2, if_pos hcond3]
  norm_num

/-- `analyze` on the C1 frame: confidence 76 with two strong categories. -/
theorem c1_analyze_eval : analyze dfC1 =
    { confidence := 76, strong_conditions := 2,
      trend := { score := 40, conditions_met := 2, total_conditions := 5 },
      momentum := { score := 100, conditions_met := 3, total_conditions := 3 },
      volatility := { score := 100, conditions_met := 3, total_conditions := 3 } } := by
  simp only [analyze, c1_trend_eval, c1_momentum_eval, c1_volatility_eval]
  norm_num [b2n]

/-- The final confidence of the C1 frame without fundamentals. -/
theorem c1_final_confidence : finalConfidence dfC1 none = 76 := by
  simp only [finalConfidence, score_fundamentals, c1_analyze_eval]
  norm_num

/-- The OHLC view of the C1 frame. -/
theorem c1_toDf : dfC1.toDf =
    { high := hiC1.map fun q => (q : ℝ), low := loC1.map fun q => (q : ℝ),
      close := clC1.map fun q => (q : ℝ) } := rfl

set_option maxRecDepth 8000 in
set_option maxHeartbeats 4000000 in
/-- On the C1 frame no support level sits more than 0.5% below the entry:
the only swing low (the cliff valley at 479.5) and the three pivot supports
all lie above `0.995 * 481.6`. -/
theorem c1_support_none :
    get_nearest_support dfC1.toDf (2408/5) (5/1000) = none := by
  rw [c1_toDf]
  norm_num [get_nearest_support, find_support_levels, tailN, valleyPositions,
    centeredMin10, winMin, count_touches, dedupLoop, pivotAppend, find_pivot_levels,
    sortByPriceDesc, lastD, round2, roundHalfEven, hiC1, loC1, clC1,
    List.insertionSort, List.orderedInsert, List.enum, List.enumFrom,
    List.filter_cons, decide_eq_true_eq, List.replicate, List.zip, List.zipWith,
    List.getLastD, max_def, min_def]

/-- The entry price of the C1 frame (the last close). -/
theorem c1_entry_val : get_current_price dfC1 = (2408/5 : ℝ) := by
  have h := c1_cols.2.2.2.1
  simp only [get_current_price, h]
  norm_num

/-- With no nearest support, `calculate_stop_loss` is the max of the EMA-8,
ATR and fixed fallback stops. -/
theorem stop_loss_fallback {α : Type} [LinearOrderedField α] [FloorRing α]
    [DecidableEq α] (df : ScoredDf α) (e : α)
    (h : get_nearest_support df.toDf e (5/1000) = none) :
    calculate_stop_loss df e
      = max (max (lastD df.ema_8 * (997/1000)) (e - 1 * lastD df.atr)) (e * (98/100)) := by
  unfold calculate_stop_loss
  rw [h]

/-- With nonpositive risk, `calculate_take_profit` returns the pure risk
multiples (no resistance target qualifies). -/
theorem take_profit_no_risk {α : Type} [LinearOrderedField α] [FloorRing α]
    [DecidableEq α] (df : ScoredDf α) (e sl : α) (h : e - sl ≤ 0) :
    calculate_take_profit df e sl
      = (e + (e - sl) * (3/2), e + (e - sl) * 2, e + (e - sl) * (5/2)) := by
  simp only [calculate_take_profit, get_resistance_targets, if_pos h]

/-- `calculate_stop_loss` on the C1 frame falls back to the EMA-8 stop,
which exceeds both the ATR and the fixed 2% stops. -/
theorem c1_stop_eval : calculate_stop_loss dfC1 (2408/5)
    = ((e8C1v : ℚ) : ℝ) * (997/1000) := by
  obtain ⟨h8, -, -, -, -, -, -, -, -, -, -, ha, -⟩ := c1_cols
  rw [stop_loss_fallback dfC1 (2408/5) c1_support_none, h8, ha]
  norm_num [max_def, e8C1v, atr49C1v]

set_option maxRecDepth 8000 in
set_option maxHeartbeats 2000000 in
/-- C1: the claim asserts that every emitted signal satisfies
`stop_loss < entry_price < target1`, the stop produced by
`calculate_stop_loss` being strictly below the entry. On the 50-candle
window `dfC1` the strategy emits a BUY signal whose stop-loss (the EMA-8
fallback `ema_8 * 0.997 = 482.0007...`) is ABOVE the entry `481.6` and
whose first target is below the entry: the claimed invariant is violated
by the code. -/
theorem c1_stop_entry_violation :
    ∃ s : Signal ℝ, generate_signal dfC1 none 65 = some s
      ∧ s.entry_price < s.stop_loss ∧ s.target1 < s.entry_price := by
  have htp := take_profit_no_risk dfC1 (2408/5 : ℝ) (((e8C1v : ℚ) : ℝ) * (997/1000))
    (by norm_num [e8C1v])
  simp only [generate_signal, c1_final_confidence, c1_analyze_eval, c1_entry_val,
    c1_stop_eval, htp]
  rw [if_neg (show ¬((76 : ℝ) < 65) from by norm_num)]
  rw [if_neg (show ¬(2 < 2 ∧ 2 < if (60 : ℝ) ≤ 65 then 2 else 1) from by norm_num)]
  refine ⟨_, rfl, ?_, ?_⟩
  · norm_num [format_signal, round2, roundHalfEven, e8C1v]
  · norm_num [format_signal, round2, roundHalfEven, e8C1v]

end ZTrader
